import Mathlib

/-!
Verification development for the timetable_kit Timetable Fill Engine.

This file gives a shallow embedding, in Lean, of the core of
`timetable_kit/core.py` and `timetable_kit/text_presentation.py`:
the cell-override-code parser (`get_cell_codes`), the cell-substitution
table, the receive/discharge marker routine (`get_rd_str`), the timepoint
formatter (`timepoint_str`), the dwell classifier
(`get_dwell_secs` / `make_stations_max_dwell_map`), and the main fill loop
(`fill_tt_spec`), together with theorems settling the specification claims.

Modelling conventions:
* Python strings are Lean `String`s, but the string operations are
  re-implemented over `List Char` (`pyStrip`, `pyEndsWith`, …) so that all
  definitions reduce inside the Lean kernel.
* pandas NaN cells have already been replaced by `""` by `TTSpec.read_csv`
  in the source, so grid cells are plain strings; a missing GTFS time
  (NaN in a stop_times row) is `Option.none`.
* GTFS integer codes are `Int`.
* Collaborating modules that are outside the embedded core (the feed
  accessors, the agency adapter, `time.py`, `tsn.py`, the icon provider)
  enter as explicit environment records of functions; routines of the
  embedded files themselves are translated directly.
* Python exceptions are the `Except TTError` monad; an uncaught exception
  aborts the whole fill, exactly as in the source.
-/

/-- Python `str.strip()`: remove leading and trailing whitespace. -/
def pyStrip (s : String) : String :=
  ((s.data.dropWhile Char.isWhitespace).reverse.dropWhile Char.isWhitespace).reverse.asString

/-- Python `str.lstrip()`: remove leading whitespace. -/
def pyLStrip (s : String) : String :=
  (s.data.dropWhile Char.isWhitespace).asString

/-- Python `str.endswith(suf)`. -/
def pyEndsWith (s suf : String) : Bool :=
  suf.data.isSuffixOf s.data

/-- Python `str.removesuffix(suf)`: drop `suf` when it is a suffix, else return `s`. -/
def removesuffix (s suf : String) : String :=
  if pyEndsWith s suf then (s.data.take (s.data.length - suf.data.length)).asString else s

/-- ASCII lower-casing of one character, as Python `str.lower()` does on the
spec keywords involved here. -/
def pyLowerChar (c : Char) : Char :=
  if 'A' ≤ c ∧ c ≤ 'Z' then Char.ofNat (c.toNat + 32) else c

/-- Python `str.lower()` (ASCII range, which covers all keywords compared). -/
def pyLower (s : String) : String :=
  (s.data.map pyLowerChar).asString

/-- Split a character list at every occurrence of `sep` (Python `str.split(sep)`
for a one-character separator: `"".split(sep) = [""]`). -/
def splitOnCharList (sep : Char) : List Char → List (List Char)
  | [] => [[]]
  | c :: rest =>
    let r := splitOnCharList sep rest
    if c = sep then [] :: r
    else match r with
      | [] => [[c]]
      | h :: t => (c :: h) :: t

/-- Python `s.split(sep)` for a one-character separator. -/
def pySplitOn (sep : Char) (s : String) : List String :=
  (splitOnCharList sep s.data).map List.asString

/-! ## Cell override codes (`core.py`, `get_cell_codes`) -/

/-- The `_CellCodes` TypedDict of `core.py`: codes which might be in a cell of
a timetable spec. -/
structure CellCodes where
  train_spec : Option String
  first : Bool
  last : Bool
  blank : Bool
  two_row : Bool
deriving Repr, DecidableEq

/-- The leading block of `get_cell_codes` that recognises and strips a
trailing `two_row` / `two-row` / `tworow` token, returning the flag and the
remaining text. -/
def strip_two_row_token (code_text : String) : Bool × String :=
  if pyEndsWith code_text "two_row" then (true, pyStrip (removesuffix code_text "two_row"))
  else if pyEndsWith code_text "two-row" then (true, pyStrip (removesuffix code_text "two-row"))
  else if pyEndsWith code_text "tworow" then (true, pyStrip (removesuffix code_text "tworow"))
  else (false, code_text)

/-- `core.py` `get_cell_codes(code_text, train_specs)`: decipher special code
text in a cell.  Returns `none` if there was no code in the cell. -/
def get_cell_codes (code_text : String) (train_specs : List String) : Option CellCodes :=
  if code_text = "" then none else
  let code_text := pyStrip code_text
  let train_specs := train_specs.map (fun ts => pyStrip (removesuffix ts "noheader"))
  let p : Bool × String := strip_two_row_token code_text
  let two_row := p.1
  let code_text := p.2
  if pyEndsWith code_text "last" then
    let train_spec := pyStrip (removesuffix code_text "last")
    if train_spec = "" then some ⟨none, false, true, false, two_row⟩
    else if train_spec ∉ train_specs then none
    else some ⟨some train_spec, false, true, false, two_row⟩
  else if pyEndsWith code_text "first" then
    let train_spec := pyStrip (removesuffix code_text "first")
    if train_spec = "" then some ⟨none, true, false, false, two_row⟩
    else if train_spec ∉ train_specs then none
    else some ⟨some train_spec, true, false, false, two_row⟩
  else if pyEndsWith code_text "blank" then
    let train_spec := pyStrip (removesuffix code_text "blank")
    if train_spec ∉ train_specs then none
    else some ⟨some train_spec, false, false, true, two_row⟩
  else
    let train_spec := pyStrip code_text
    if train_spec = "" ∧ two_row then some ⟨none, false, false, false, two_row⟩
    else if train_spec ∉ train_specs then none
    else some ⟨some train_spec, false, false, false, two_row⟩

/-! ## Simple cell substitutions (`text_presentation.py`) -/

/-- `text_presentation.py` `new_cell_substitution_map` (the active
`cell_substitution_map`). -/
def cell_substitution_map : List (String × String) :=
  [("blank", " "),
   ("downarrow", "<div style=\"text-align: center; font-weight: bold;\">&#x2193;</div>"),
   ("uparrow", "<div style=\"text-align: center; font-weight: bold;\">&#x2191;</div>"),
   ("rightarrow", "<div style=\"text-align: center; font-weight: bold;\">&#x2192;</div>"),
   ("downrightarrow", "<div style=\"text-align: right; font-weight: bold;\">&#x2198;</div>"),
   ("rightdownarrow", "<div style=\"text-align: left; font-weight: bold;\">&#x2198;</div>"),
   ("uprightarrow", "<div style=\"text-align: right; font-weight: bold;\">&#x2197;</div>"),
   ("rightuparrow", "<div style=\"text-align: left; font-weight: bold;\">&#x2197;</div>")]

/-- `text_presentation.py` `get_cell_substitution(cell_text)`. -/
def get_cell_substitution (cell_text : String) : Option String :=
  cell_substitution_map.lookup (pyStrip cell_text)

/-! ## Timepoints and the R/D marker (`text_presentation.py`, `get_rd_str`) -/

/-- One row of the GTFS `stop_times` table, as read by the formatter: a
read-only record per (trip, stop).  `none` stands for a pandas NaN time;
`timepoint_field` is the optional `timepoint` column (`some v` when the
column is present, mirroring Python's `"timepoint" in timepoint`). -/
structure Timepoint where
  arrival_time : Option String
  departure_time : Option String
  drop_off_type : Int
  pickup_type : Int
  timepoint_field : Option Int
deriving Repr, DecidableEq

/-- `text_presentation.py` `get_rd_str`: a single character (default a blank
space) with receive-only / discharge-only annotation, in the source's
match-case order. -/
def get_rd_str (tp : Timepoint) (doing_html : Bool)
    (is_first_stop is_last_stop : Bool)
    (is_first_line is_second_line : Bool)
    (is_arrival_line is_departure_line : Bool) : String :=
  let rd_str : String :=
    if tp.drop_off_type = 1 ∧ tp.pickup_type = 0 then
      if ¬is_first_stop ∧ ¬is_arrival_line then "R" else " "
    else if tp.drop_off_type = 0 ∧ tp.pickup_type = 1 then
      if ¬is_last_stop ∧ ¬is_departure_line then "D" else " "
    else if tp.drop_off_type = 1 ∧ tp.pickup_type = 1 then
      if ¬is_second_line then "*" else " "
    else if tp.drop_off_type = 2 ∨ tp.drop_off_type = 3
        ∨ tp.pickup_type = 2 ∨ tp.pickup_type = 3 then
      if ¬is_second_line then "F" else " "
    else if tp.timepoint_field.isSome then
      if tp.timepoint_field = some 0 ∧ ¬is_arrival_line then "L" else " "
    else " "
  if doing_html then
    let rd_str := if rd_str ≠ " " then "<b>" ++ rd_str ++ "</b>" else rd_str
    "<span class=\"box-rd\">" ++ rd_str ++ "</span>"
  else rd_str

/-! ## The timepoint formatter (`text_presentation.py`, `timepoint_str`) -/

/-- The result of `time.py` `explode_timestr`: the fields of the exploded
local time actually consumed by `timepoint_str` (`day` offset, `pm` flag),
plus the exploded time data passed on to the short-time renderers. -/
structure TimeTuple where
  day : Int
  pm : Int
  txt : String
deriving Repr, DecidableEq

/-- Environment of collaborator functions used by the formatter and the fill
loop.  These live in modules outside the embedded core (`time.py`,
`text_assembly.py`, `icons.py`), which the formatter calls but does not
define; they are threaded as explicit parameters. -/
structure TimeEnv where
  get_zonediff : String → Int
  explode_timestr : String → Int → TimeTuple
  time_short_str_12 : TimeTuple → Bool → String
  time_short_str_24 : TimeTuple → Bool → String
  day_string : Option String → Int → String
  safe_br : String
  baggage_icon : Bool → String
  bus_icon : Bool → String

/-- `text_presentation.py` opening tag of the checked-baggage box
(`baggage_box_pre…` in the source). -/
def baggage_box_open : String := "<span class=\"box-baggage\">"

/-- `text_presentation.py` closing tag of the checked-baggage box. -/
def baggage_box_close : String := "</span>"

/-- `text_presentation.py` `get_baggage_str`. -/
def get_baggage_str (env : TimeEnv) (doing_html : Bool) : String :=
  if ¬doing_html then env.baggage_icon false
  else baggage_box_open ++ env.baggage_icon true ++ baggage_box_close

/-- `text_presentation.py` `get_blank_baggage_str`. -/
def get_blank_baggage_str (doing_html : Bool) : String :=
  if ¬doing_html then " " else baggage_box_open ++ baggage_box_close

/-- `text_presentation.py` opening tag of the bus box. -/
def bus_box_open : String := "<span class=\"box-bus\">"

/-- `text_presentation.py` closing tag of the bus box. -/
def bus_box_close : String := "</span>"

/-- `text_presentation.py` `get_bus_str`. -/
def get_bus_str (env : TimeEnv) (doing_html : Bool) : String :=
  if ¬doing_html then env.bus_icon false
  else bus_box_open ++ env.bus_icon true ++ bus_box_close

/-- `text_presentation.py` `get_blank_bus_str`. -/
def get_blank_bus_str (doing_html : Bool) : String :=
  if ¬doing_html then " " else bus_box_open ++ bus_box_close

/-- Span wrapper `<span class="cls">body</span>` used throughout
`timepoint_str`. -/
def spanWrap (cls body : String) : String :=
  "<span class=\"" ++ cls ++ "\">" ++ body ++ "</span>"

/-- The keyword arguments of `timepoint_str` (all layout flags, with the
calendar the source passes alongside them for the day-string). -/
structure TPFlags where
  doing_html : Bool
  box_time_characters : Bool
  reverse : Bool
  two_row : Bool
  use_ar_dp_str : Bool
  bold_pm : Bool
  times_24h : Bool
  use_daystring : Bool
  long_days_box : Bool
  short_days_box : Bool
  calendar : Option String
  is_first_stop : Bool
  is_last_stop : Bool
  use_baggage_icon : Bool
  has_baggage : Bool
  use_bus_icon : Bool
  is_bus : Bool
  no_rd : Bool
deriving Repr, DecidableEq

/-- All-false / default flag set (matching the Python keyword defaults, where
`bold_pm` defaults to `True`). -/
def TPFlags.default : TPFlags :=
  ⟨false, false, false, false, false, true, false, false, false, false,
   none, false, false, false, false, false, false, false⟩

/-- Shared time-string preparation of `timepoint_str` (the source repeats
this block once for the departure and once for the arrival time): explode
the raw GTFS time through the zone difference, render it (12h/24h), and in
HTML mode bold PM times and wrap the result in the fixed-width time box.
A missing time (`none`, pandas NaN) renders as the literal placeholder
`---` and counts as not-PM. -/
def fmt_time_str (env : TimeEnv) (fl : TPFlags) (t? : Option String) (zonediff : Int) : String :=
  let tuple := t?.map (fun t => env.explode_timestr t zonediff)
  let base :=
    match tuple with
    | none => "---"
    | some d =>
      (if fl.times_24h then env.time_short_str_24 else env.time_short_str_12) d
        (if ¬fl.doing_html then false else fl.box_time_characters)
  let is_pm : Int := match tuple with | none => 0 | some d => d.pm
  if fl.doing_html then
    let s := if fl.bold_pm ∧ is_pm = 1 then "<b>" ++ base ++ "</b>" else base
    if fl.times_24h then spanWrap "box-time24" s else spanWrap "box-time12" s
  else base

/-- The departure time string of `timepoint_str`. -/
def fmt_departure_time_str (env : TimeEnv) (tp : Timepoint) (stop_tz : String) (fl : TPFlags) : String :=
  fmt_time_str env fl tp.departure_time (env.get_zonediff stop_tz)

/-- The arrival time string of `timepoint_str`. -/
def fmt_arrival_time_str (env : TimeEnv) (tp : Timepoint) (stop_tz : String) (fl : TPFlags) : String :=
  fmt_time_str env fl tp.arrival_time (env.get_zonediff stop_tz)

/-- The CSS class chosen for the day-string box in `timepoint_str`. -/
def fmt_days_box_class (fl : TPFlags) : String :=
  if fl.long_days_box then "box-days-long"
  else if fl.short_days_box then "box-days-short"
  else "box-days"

/-- One day-string of `timepoint_str` (again the source repeats the block for
departure and arrival): empty unless `use_daystring`; HTML wraps in the days
box, plaintext prepends the spacer the source inserts. -/
def fmt_daystring (env : TimeEnv) (fl : TPFlags) (t? : Option String) (zonediff : Int) : String :=
  if fl.use_daystring then
    let raw :=
      match t?.map (fun t => env.explode_timestr t zonediff) with
      | none => ""
      | some d => env.day_string fl.calendar d.day
    if fl.doing_html then spanWrap (fmt_days_box_class fl) raw else " " ++ raw
  else ""

/-- The departure day-string of `timepoint_str`. -/
def fmt_departure_daystring (env : TimeEnv) (tp : Timepoint) (stop_tz : String) (fl : TPFlags) : String :=
  fmt_daystring env fl tp.departure_time (env.get_zonediff stop_tz)

/-- The arrival day-string of `timepoint_str`. -/
def fmt_arrival_daystring (env : TimeEnv) (tp : Timepoint) (stop_tz : String) (fl : TPFlags) : String :=
  fmt_daystring env fl tp.arrival_time (env.get_zonediff stop_tz)

/-- `timepoint_str`'s `blank_rd_str`: empty in plaintext, an empty fixed-width
R/D box in HTML. -/
def fmt_blank_rd_str (fl : TPFlags) : String :=
  if fl.doing_html then spanWrap "box-rd" "" else ""

/-- `timepoint_str`'s `blank_time_str`: empty in plaintext, an empty
fixed-width time box in HTML. -/
def fmt_blank_time_str (fl : TPFlags) : String :=
  if fl.doing_html then
    (if fl.times_24h then spanWrap "box-time24" "" else spanWrap "box-time12" "")
  else ""

/-- `timepoint_str`'s `blank_daystring`. -/
def fmt_blank_daystring (fl : TPFlags) : String :=
  if fl.use_daystring ∧ fl.doing_html then spanWrap (fmt_days_box_class fl) "" else ""

/-- `timepoint_str`'s `ar_str` ("Ar" label or its box). -/
def fmt_ar_str (fl : TPFlags) : String :=
  if fl.use_ar_dp_str then
    (if fl.doing_html then spanWrap "box-ardp" "Ar" else "Ar ")
  else ""

/-- `timepoint_str`'s `dp_str` ("Dp" label or its box). -/
def fmt_dp_str (fl : TPFlags) : String :=
  if fl.use_ar_dp_str then
    (if fl.doing_html then spanWrap "box-ardp" "Dp" else "Dp ")
  else ""

/-- `timepoint_str`'s `receive_only` flag: set by `is_first_stop` or by a
GTFS `drop_off_type=1, pickup_type=0` stop. -/
def tp_receive_only (tp : Timepoint) (fl : TPFlags) : Bool :=
  if tp.drop_off_type = 1 ∧ tp.pickup_type = 0 then true else fl.is_first_stop

/-- `timepoint_str`'s `discharge_only` flag: set by `is_last_stop` or (in the
`elif` of the source, so only when the receive-only test failed) by a GTFS
`pickup_type=1, drop_off_type=0` stop. -/
def tp_discharge_only (tp : Timepoint) (fl : TPFlags) : Bool :=
  if ¬(tp.drop_off_type = 1 ∧ tp.pickup_type = 0)
      ∧ tp.pickup_type = 1 ∧ tp.drop_off_type = 0 then true
  else fl.is_last_stop

/-- `timepoint_str`'s `no_dwell` flag (pandas `==` on possibly-NaN scalars:
NaN compares unequal to everything, including NaN). -/
def tp_no_dwell (tp : Timepoint) : Bool :=
  match tp.departure_time, tp.arrival_time with
  | some d, some a => d == a
  | _, _ => false

/-- The (arrival, departure, blank) baggage strings of `timepoint_str`'s
two-row branch. -/
def two_row_bag_strs (env : TimeEnv) (tp : Timepoint) (fl : TPFlags) : String × String × String :=
  let receive_only := tp_receive_only tp fl
  let discharge_only := tp_discharge_only tp fl
  let no_dwell := tp_no_dwell tp
  if ¬fl.use_baggage_icon then ("", "", "")
  else
    let blank := get_blank_baggage_str fl.doing_html
    if ¬fl.has_baggage then (blank, blank, blank)
    else if receive_only ∨ (no_dwell ∧ ¬discharge_only) then
      (blank, get_baggage_str env fl.doing_html, blank)
    else if discharge_only then (get_baggage_str env fl.doing_html, blank, blank)
    else if fl.reverse then (blank, get_baggage_str env fl.doing_html, blank)
    else (get_baggage_str env fl.doing_html, blank, blank)

/-- The (arrival, departure, blank) bus strings of `timepoint_str`'s two-row
branch. -/
def two_row_bus_strs (env : TimeEnv) (tp : Timepoint) (fl : TPFlags) : String × String × String :=
  let receive_only := tp_receive_only tp fl
  let discharge_only := tp_discharge_only tp fl
  let no_dwell := tp_no_dwell tp
  if ¬fl.use_bus_icon then ("", "", "")
  else
    let blank := get_blank_bus_str fl.doing_html
    if ¬fl.is_bus then (blank, blank, blank)
    else if receive_only ∨ (no_dwell ∧ ¬discharge_only) then
      (blank, get_bus_str env fl.doing_html, blank)
    else if discharge_only then (get_bus_str env fl.doing_html, blank, blank)
    else if fl.reverse then (blank, get_bus_str env fl.doing_html, blank)
    else (get_bus_str env fl.doing_html, blank, blank)

/-- The suppressed-but-width-preserving arrival line of the two-row branch:
just the "Ar" label plus the blank fixed-width boxes. -/
def two_row_arrival_blank_line (env : TimeEnv) (tp : Timepoint) (fl : TPFlags) : String :=
  fmt_ar_str fl ++ (if fl.no_rd then "" else fmt_blank_rd_str fl) ++ fmt_blank_time_str fl
    ++ fmt_blank_daystring fl ++ (two_row_bag_strs env tp fl).2.2 ++ (two_row_bus_strs env tp fl).2.2

/-- The full (time-carrying) arrival line of the two-row branch. -/
def two_row_arrival_full_line (env : TimeEnv) (tp : Timepoint) (stop_tz : String) (fl : TPFlags) : String :=
  let arrival_rd_str := get_rd_str tp fl.doing_html fl.is_first_stop fl.is_last_stop
    (!fl.reverse) fl.reverse true false
  fmt_ar_str fl ++ (if fl.no_rd then "" else arrival_rd_str)
    ++ fmt_arrival_time_str env tp stop_tz fl ++ fmt_arrival_daystring env tp stop_tz fl
    ++ (two_row_bag_strs env tp fl).1 ++ (two_row_bus_strs env tp fl).1

/-- The suppressed-but-width-preserving departure line of the two-row branch:
just the "Dp" label plus the blank fixed-width boxes. -/
def two_row_departure_blank_line (env : TimeEnv) (tp : Timepoint) (fl : TPFlags) : String :=
  fmt_dp_str fl ++ (if fl.no_rd then "" else fmt_blank_rd_str fl) ++ fmt_blank_time_str fl
    ++ fmt_blank_daystring fl ++ (two_row_bag_strs env tp fl).2.2 ++ (two_row_bus_strs env tp fl).2.2

/-- The full (time-carrying) departure line of the two-row branch. -/
def two_row_departure_full_line (env : TimeEnv) (tp : Timepoint) (stop_tz : String) (fl : TPFlags) : String :=
  let departure_rd_str := get_rd_str tp fl.doing_html fl.is_first_stop fl.is_last_stop
    (!fl.reverse) fl.reverse false true
  fmt_dp_str fl ++ (if fl.no_rd then "" else departure_rd_str)
    ++ fmt_departure_time_str env tp stop_tz fl ++ fmt_departure_daystring env tp stop_tz fl
    ++ (two_row_bag_strs env tp fl).2.1 ++ (two_row_bus_strs env tp fl).2.1

/-- The arrival line chosen by the two-row branch of `timepoint_str`. -/
def two_row_arrival_line (env : TimeEnv) (tp : Timepoint) (stop_tz : String) (fl : TPFlags) : String :=
  if fl.is_first_stop then ""
  else if tp_receive_only tp fl ∨ (tp_no_dwell tp ∧ ¬tp_discharge_only tp fl) then
    two_row_arrival_blank_line env tp fl
  else two_row_arrival_full_line env tp stop_tz fl

/-- The departure line chosen by the two-row branch of `timepoint_str`. -/
def two_row_departure_line (env : TimeEnv) (tp : Timepoint) (stop_tz : String) (fl : TPFlags) : String :=
  if fl.is_last_stop then ""
  else if tp_discharge_only tp fl then two_row_departure_blank_line env tp fl
  else two_row_departure_full_line env tp stop_tz fl

/-- `text_presentation.py` `timepoint_str`: produce the text or HTML string
for one timetable cell, showing times of departure, arrival, and extra
symbols, in one-row or two-row form.  The named `fmt_…` / `two_row_…`
definitions above are the source's local bindings, factored out so that
individual lines can be talked about. -/
def timepoint_str (env : TimeEnv) (tp : Timepoint) (stop_tz : String)
    (fl : TPFlags) : String :=
  let linebreak := if fl.doing_html then env.safe_br else "\n"
  let ardp_spacer := "   "
  let discharge_only := tp_discharge_only tp fl
  if ¬fl.two_row then
    -- One-row version
    let rd_str := get_rd_str tp fl.doing_html fl.is_first_stop fl.is_last_stop
      false false false false
    let ar_dp_str := if fl.use_ar_dp_str ∧ ¬fl.doing_html then ardp_spacer else ""
    let ar_dp_str :=
      if fl.is_first_stop then fmt_dp_str fl
      else if fl.is_last_stop then fmt_ar_str fl
      else ar_dp_str
    let baggage_str :=
      if ¬fl.use_baggage_icon then ""
      else if fl.has_baggage then get_baggage_str env fl.doing_html
      else get_blank_baggage_str fl.doing_html
    let bus_str :=
      if ¬fl.use_bus_icon then ""
      else if fl.is_bus then get_bus_str env fl.doing_html
      else get_blank_bus_str fl.doing_html
    ar_dp_str ++ (if fl.no_rd then "" else rd_str)
      ++ (if discharge_only then fmt_arrival_time_str env tp stop_tz fl
          else fmt_departure_time_str env tp stop_tz fl)
      ++ (if discharge_only then fmt_arrival_daystring env tp stop_tz fl
          else fmt_departure_daystring env tp stop_tz fl)
      ++ baggage_str ++ bus_str
  else
    -- Two-row version
    if ¬fl.reverse then
      two_row_arrival_line env tp stop_tz fl ++ linebreak ++ two_row_departure_line env tp stop_tz fl
    else
      two_row_departure_line env tp stop_tz fl ++ linebreak ++ two_row_arrival_line env tp stop_tz fl

/-! ## Errors, trips, routes (`errors.py` and GTFS records) -/

/-- The error taxonomy of `errors.py`, plus `typeErr`/`pyExc` for raw Python
exceptions (TypeError, KeyError/IndexError/NameError) that the source would
let propagate uncaught. -/
inductive TTError where
  | input
  | gtfs
  | twoStops
  | noTrip
  | twoTrips
  | typeErr
  | pyExc
deriving Repr, DecidableEq

/-- The fields of a GTFS `trips` row consumed by the fill. -/
structure Trip where
  trip_id : String
  service_id : String
  route_id : String
deriving Repr, DecidableEq

/-- The fields of a GTFS `routes` row consumed by the fill. -/
structure Route where
  route_id : String
  route_type : Int
deriving Repr, DecidableEq

/-- `core.py` `special_column_names`. -/
def special_column_names : List String :=
  ["", "station", "stations", "services", "access", "timezone"]

/-- `core.py` `special_row_names`. -/
def special_row_names : List String :=
  ["", "omit", "column-options", "column_options", "route-name", "updown",
   "days", "days-of-week", "origin", "destination"]

/-- `core.py` `split_trains_spec`: split a column key like `"59 / 174 / 22"`
on `/` into individual train specs, stripping whitespace. -/
def split_trains_spec (trains_spec : String) : List String :=
  (pySplitOn '/' (pyLStrip trains_spec)).map pyStrip

/-- `core.py` `flatten_train_specs_list`, as a list (the source builds an
unordered Python set; every consumer folds a commutative-idempotent
operation over it, so a list with possible duplicates is an equivalent
carrier): flatten slash-joined specs, strip `noheader` suffixes, drop the
special column keywords. -/
def flatten_train_specs_list (train_specs_list : List String) : List String :=
  ((train_specs_list.flatMap split_trains_spec).map
      (fun ts => pyStrip (removesuffix ts "noheader"))).filter
    (fun ts => ts ∉ special_column_names)

/-! ## The dwell classifier (`core.py`, `get_dwell_secs` /
`make_stations_max_dwell_map`) -/

/-- Environment for the dwell computation: the feed's timepoint lookup
(which may raise `TwoStopsError`), `gtfs_kit.timestr_to_seconds`, the
trip resolver passed in as `trip_from_train_spec_fn`, and the agency's
station-code → stop-id mapping. -/
structure DwellEnv where
  get_timepoint_from_trip_id : String → String → Except TTError (Option Timepoint)
  timestr_to_seconds : Option String → Int
  trip_from_train_spec : String → Except TTError Trip
  stop_code_to_stop_id : String → String

/-- `core.py` `get_dwell_secs`: dwell time in seconds of `trip_id` at
`stop_id`; zero when the trip does not stop there, and zero when the stop is
discharge-only or receive-only. -/
def get_dwell_secs (env : DwellEnv) (trip_id stop_id : String) : Except TTError Int := do
  let timepoint ← env.get_timepoint_from_trip_id trip_id stop_id
  match timepoint with
  | none => pure 0
  | some tp =>
    if tp.drop_off_type = 1 ∨ tp.pickup_type = 1 then pure 0
    else pure (env.timestr_to_seconds tp.departure_time - env.timestr_to_seconds tp.arrival_time)

/-- The inner loop of `make_stations_max_dwell_map`: fold `max` of the dwell
seconds of every flattened train spec at one stop (the source starts the
accumulator at 0). -/
def stations_max_dwell_loop (env : DwellEnv) (stop_id : String) (max_dwell_secs : Int) :
    List String → Except TTError Int
  | [] => pure max_dwell_secs
  | train_spec :: rest => do
    let trip ← env.trip_from_train_spec train_spec
    let d ← get_dwell_secs env trip.trip_id stop_id
    stations_max_dwell_loop env stop_id (max max_dwell_secs d) rest

/-- `core.py` `make_stations_max_dwell_map`: a map from station code to
whether some spec train's dwell there meets the cutoff (the two-row
classification), built station by station as the source's dict loop does. -/
def make_stations_max_dwell_map (env : DwellEnv) (dwell_secs_cutoff : Int)
    (flattened_train_spec_list : List String) :
    List String → Except TTError (List (String × Bool))
  | [] => pure []
  | station_code :: rest => do
    let stop_id := env.stop_code_to_stop_id station_code
    let max_dwell_secs ← stations_max_dwell_loop env stop_id 0 flattened_train_spec_list
    let tail ← make_stations_max_dwell_map env dwell_secs_cutoff flattened_train_spec_list rest
    pure ((station_code, decide (max_dwell_secs ≥ dwell_secs_cutoff)) :: tail)

/-- The dwell contribution of one train at one stop exactly as the claim
describes it: a train that does not stop contributes zero; a stop with
`drop_off_type = 1` or `pickup_type = 1` contributes zero; otherwise
departure seconds minus arrival seconds. -/
def claim_dwell_contribution (env : DwellEnv) (stop_id : String) (train_spec : String) :
    Except TTError Int := do
  let trip ← env.trip_from_train_spec train_spec
  let timepoint ← env.get_timepoint_from_trip_id trip.trip_id stop_id
  match timepoint with
  | none => pure 0
  | some tp =>
    if tp.drop_off_type = 1 ∨ tp.pickup_type = 1 then pure 0
    else pure (env.timestr_to_seconds tp.departure_time - env.timestr_to_seconds tp.arrival_time)

/-! ## The spec object (`core.py`, class `TTSpec`) -/

/-- Read one cell of a list-of-rows grid (pandas `iloc[y, x]` on a
rectangular string DataFrame; out-of-range gives `""`, which the source
never relies on for in-range access). -/
def get2d (g : List (List String)) (y x : Nat) : String :=
  (g.getD y []).getD x ""

/-- Write one cell of a list-of-rows grid (pandas `iloc[y, x] = v`). -/
def set2d (g : List (List String)) (y x : Nat) (v : String) : List (List String) :=
  g.set y ((g.getD y []).set x v)

/-- Python `str.split()` with no separator: split on runs of whitespace,
dropping empty pieces.  Accumulator-passing word scanner. -/
def wordsAux : List Char → List Char → List (List Char)
  | [], acc => if acc = [] then [] else [acc.reverse]
  | c :: rest, acc =>
    if c.isWhitespace then
      (if acc = [] then wordsAux rest [] else acc.reverse :: wordsAux rest [])
    else wordsAux rest (c :: acc)

/-- Python `str.split()` (whitespace splitting, used for column options). -/
def pyWhitespaceSplit (s : String) : List String :=
  (wordsAux s.data []).map List.asString

/-- `feed_enhanced.GTFS_DAYS` (the module is not under `src/`; the GTFS
weekday names are fixed by the GTFS calendar schema and by the spec's
"train number optionally disambiguated by a trailing weekday token"). -/
def GTFS_DAYS : List String :=
  ["monday", "tuesday", "wednesday", "thursday", "friday", "saturday", "sunday"]

/-- The state of a `TTSpec` object: the aux fields the fill reads (after
`__set_aux_defaults`), the CSV grid, and the `column_options` attribute
installed by `calculate_column_options`. -/
structure TTSpecData where
  aux_reference_date : Option String
  aux_train_numbers_side_by_side : Bool
  aux_dwell_secs_cutoff : Int
  aux_use_bus_icon_in_cells : Bool
  aux_box_time_characters : Bool
  csv : List (List String)
  column_options : List (List String)
deriving Repr, DecidableEq

/-- `TTSpec.strip_omits`: drop the rows whose first column is `"omit"`. -/
def TTSpecData.strip_omits (spec : TTSpecData) : TTSpecData :=
  { spec with csv := spec.csv.filter (fun row => row.getD 0 "" ≠ "omit") }

/-- `TTSpec.calculate_column_options`: if row 1, column 0 is the
column-options marker, turn row 1 into per-column whitespace-split option
lists and delete the row; otherwise install an all-empty option list sized
to the column count. -/
def TTSpecData.calculate_column_options (spec : TTSpecData) : TTSpecData :=
  if pyLower (get2d spec.csv 1 0) ∉ (["column-options", "column_options"] : List String) then
    { spec with column_options := List.replicate (spec.csv.headD []).length [] }
  else
    { spec with
      column_options := (spec.csv.getD 1 []).map pyWhitespaceSplit,
      csv := spec.csv.eraseIdx 1 }

/-- `TTSpec.get_stations_list`: column 0 of the data rows, stripped, minus
the special row keywords. -/
def TTSpecData.get_stations_list (spec : TTSpecData) : List String :=
  (((spec.csv.drop 1).map (fun row => pyStrip (row.getD 0 ""))).filter
    (fun i => i ∉ special_row_names))

/-- `TTSpec.get_train_specs_list`: row 0 past the first column, stripped,
minus the special column keywords. -/
def TTSpecData.get_train_specs_list (spec : TTSpecData) : List String :=
  ((((spec.csv.headD []).drop 1).map pyStrip).filter
    (fun i => i ∉ special_column_names))

/-! ## The fill environment (collaborators of `fill_tt_spec`) -/

/-- Environment of collaborator data used by `fill_tt_spec`: the reduced
feed's lookup dictionaries and tables, the agency singleton, the styling
routine of `timetable_styling.py`, and the HTML header builder (whose
plaintext side is embedded below).  Each field collapses one collaborator
call that the fill makes. -/
structure FillEnv where
  time : TimeEnv
  train_spec_to_trip_id : String → Option String
  trips_rows_for_id : String → List Trip
  routes_for_id : String → List Route
  get_timepoint_from_trip_id : String → String → Except TTError (Option Timepoint)
  stations_list_from_trip_id : String → List String
  stops_tz : String → Option String
  timestr_to_seconds : Option String → Int
  stations_of : String → Option String → Except TTError (List String)
  stop_code_to_stop_id : String → String
  get_station_name_pretty : String → Bool → Bool → String
  get_station_name_from : String → Bool → Bool → String
  get_station_name_to : String → Bool → Bool → String
  station_has_accessible_platform : String → Bool
  station_has_inaccessible_platform : String → Bool
  train_has_checked_baggage : String → Bool
  station_has_checked_baggage : String → Bool
  get_route_name : String → String
  is_standard_major_station : String → Bool
  train_spec_to_tsn : String → String
  get_time_column_stylings : String → String → Except TTError String
  get_time_column_header_html : List String → Bool → Except TTError String
  style_route_name_for_column : String → Bool → String
  accessible_icon_html : Bool → String
  inaccessible_icon_html : Bool → String
  zone_str : String → Bool → String
  station_column_header : String
  services_column_header : String
  access_column_header : String
  timezone_column_header : String

/-- `fill_tt_spec`'s inner `trip_from_train_spec_local`: dictionary lookup
(raising `InputError` on a miss), then `raise_error_if_not_one_row` on the
filtered trips table. -/
def trip_from_train_spec_local (env : FillEnv) (train_spec : String) : Except TTError Trip :=
  match env.train_spec_to_trip_id train_spec with
  | none => throw .input
  | some my_trip_id =>
    match env.trips_rows_for_id my_trip_id with
    | [] => throw .noTrip
    | [t] => pure t
    | _ => throw .twoTrips

/-- `fill_tt_spec`'s inner `route_from_train_spec_local`: resolve the trip,
then its route row, raising `GTFSError` when the route is missing. -/
def route_from_train_spec_local (env : FillEnv) (train_spec : String) : Except TTError Route := do
  let my_trip ← trip_from_train_spec_local env train_spec
  match env.routes_for_id my_trip.route_id with
  | [] => throw .gtfs
  | r :: _ => pure r

/-- `TTSpec.augment_from_key_cell`: when cell (0,0) is
`"stations of <train>[ <weekday>]"`, blank the key cell and append one row
per station served; any other non-blank key cell is an `InputError`. -/
def TTSpecData.augment_from_key_cell (env : FillEnv) (spec : TTSpecData) :
    Except TTError TTSpecData := do
  let key_code := get2d spec.csv 0 0
  if key_code = "" then pure spec
  else if ¬("stations of ".data.isPrefixOf key_code.data) then throw .input
  else
    let key_train_name := (key_code.data.drop "stations of ".data.length).asString
    let p : String × Option String :=
      match GTFS_DAYS.find? (fun day => pyEndsWith key_train_name day) with
      | some day => (pyStrip (removesuffix key_train_name day), some day)
      | none => (key_train_name, none)
    let stations ← env.stations_of p.1 p.2
    let width := (spec.csv.headD []).length
    let new_csv := set2d spec.csv 0 0 ""
    pure { spec with
      csv := new_csv ++ stations.map (fun st => st :: List.replicate (width - 1) "") }

/-- The spec normalization block at the top of `fill_tt_spec` (source order:
`strip_omits`, `calculate_column_options`, `augment_from_key_cell`); the
source performs it by mutating the spec in place. -/
def TTSpecData.normalize (env : FillEnv) (spec : TTSpecData) : Except TTError TTSpecData :=
  ((spec.strip_omits).calculate_column_options).augment_from_key_cell env

/-! ## The cell filler (`core.py`, the big match inside `fill_tt_spec`) -/

/-- The per-column flag block computed in the default (train-column) arm of
the column match.  In Python these are plain local variables, so for special
columns they keep whatever value the previous train column left — the loop
state below carries them as an `Option` that is `none` before the first
train column (touching them then would be a `NameError`). -/
structure ColumnVars where
  reverse : Bool
  use_daystring : Bool
  long_days_box : Bool
  short_days_box : Bool
  this_column_gets_ardp : Bool
  no_rd : Bool
  use_bus_icon_this_column : Bool
  use_baggage_icon_this_column : Bool
deriving Repr, DecidableEq

/-- The `is_first_stop` / `is_last_stop` / `two_row` layout computation of
the default cell arm: flags default to false and come only from cell codes;
a first/last override forces one-row unless the override also carries
`two_row`. -/
structure LayoutFlags where
  is_first_stop : Bool
  is_last_stop : Bool
  two_row : Bool
deriving Repr, DecidableEq

/-- Layout-flag computation from the cell codes and the station's two-row
classification (`core.py` lines computing `two_row`, `is_first_stop`,
`is_last_stop` in the default arm). -/
def layout_flags (cell_codes : Option CellCodes) (station_two_row : Bool) : LayoutFlags :=
  match cell_codes with
  | none => ⟨false, false, station_two_row⟩
  | some cc =>
    let two_row := station_two_row
    let two_row := if cc.first ∨ cc.last then false else two_row
    let two_row := if cc.two_row then true else two_row
    ⟨cc.first, cc.last, two_row⟩

/-- The `train_specs_to_check` selection of the default cell arm: a cell
code naming a train restricts the check to that train alone; otherwise all
of the column's train specs, `noheader`-stripped, are tried in order. -/
def train_specs_to_check (cell_codes : Option CellCodes) (train_specs : List String) :
    List String :=
  match cell_codes with
  | some cc =>
    match cc.train_spec with
    | some t => [t]
    | none => train_specs.map (fun ts => pyStrip (removesuffix ts "noheader"))
  | none => train_specs.map (fun ts => pyStrip (removesuffix ts "noheader"))

/-- The timepoint-search loop of the default cell arm: resolve each train in
turn and stop at the first whose trip has a timepoint at this stop; the
loop's last bindings (train spec, trip, timepoint) survive it.  An empty
list would leave the Python variables unbound (`pyExc`). -/
def find_timepoint (env : FillEnv) :
    List String → String → Except TTError (String × Trip × Option Timepoint)
  | [], _ => throw .pyExc
  | [train_spec], stop_id => do
    let my_trip ← trip_from_train_spec_local env train_spec
    let tp ← env.get_timepoint_from_trip_id my_trip.trip_id stop_id
    pure (train_spec, my_trip, tp)
  | train_spec :: rest, stop_id => do
    let my_trip ← trip_from_train_spec_local env train_spec
    let tp ← env.get_timepoint_from_trip_id my_trip.trip_id stop_id
    match tp with
    | some t => pure (train_spec, my_trip, some t)
    | none => find_timepoint env rest stop_id

/-- `text_presentation.py` `style_updown` (the `using_arrows` branch is
disabled by a constant in the source). -/
def style_updown (reverse : Bool) (doing_html : Bool) : String :=
  let text := if reverse then "Read Up" else "Read Down"
  if ¬doing_html then text
  else "<b>" ++ text ++ "</b>"

/-- `" ".join(cell_css_list)`. -/
def joinCss (l : List String) : String := String.intercalate " " l

/-- The route-name loop of the `route-name` row arm: walk the column's train
specs, skip `noheader` ones, collect styled route names (collapsing
consecutive duplicates), and take the cell styling from the first
non-`noheader` train.  Returns the styled names (in order) and the styling
classes to append. -/
def route_name_loop (env : FillEnv) (doing_html : Bool)
    (route_names styled_names : List String) (styled_already : Bool)
    (css_add : List String) :
    List String → Except TTError (List String × List String)
  | [] => pure (styled_names.reverse, css_add.reverse)
  | train_spec :: rest => do
    if pyEndsWith train_spec "noheader" then
      route_name_loop env doing_html route_names styled_names styled_already css_add rest
    else do
      let my_trip ← trip_from_train_spec_local env train_spec
      let route_name := env.get_route_name my_trip.route_id
      let styled := env.style_route_name_for_column route_name doing_html
      let keep := route_names = [] ∨ route_names.headD "" ≠ route_name
      let route_names := if keep then route_name :: route_names else route_names
      let styled_names := if keep then styled :: styled_names else styled_names
      let css_add ←
        if ¬styled_already then do
          let sty ← env.get_time_column_stylings train_spec "class"
          pure (sty :: css_add)
        else pure css_add
      route_name_loop env doing_html route_names styled_names true css_add rest

/-- The interleaved match over (station key, column key, cell text) of
`fill_tt_spec`, in the source's case order, after the cell-substitution
rewrite has been applied to the grid; `cell_codes` was computed on the
pre-substitution text.  Returns the cell text written to the timetable and
the joined style string written to the styler. -/
def fill_cell_core (env : FillEnv) (doing_html doing_multiline_text box_time_characters : Bool)
    (ardp : String → Except TTError Bool)
    (station_codes_list : List String)
    (column_key_str : String) (train_specs : List String)
    (cv? : Option ColumnVars) (stations_for_column : Option (List String))
    (cell_codes : Option CellCodes)
    (csv : List (List String)) (y x : Nat) :
    Except TTError (String × String) := do
  let station_code := get2d csv y 0
  let base_cell_css := ""
  let cellv := get2d csv y x
  let sc := pyLower station_code
  let ck := pyLower column_key_str
  let cc_blank := match cell_codes with | some cc => cc.blank | none => false
  if sc = "" ∧ cellv = "" then
    pure ("", joinCss [base_cell_css])
  else if sc = "" then
    if cc_blank then do
      let sty ←
        match cell_codes with
        | some cc =>
          match cc.train_spec with
          | some t => env.get_time_column_stylings t "class"
          | none => throw .typeErr
        | none => throw .typeErr
      pure ("", joinCss [base_cell_css, "blank-cell", sty])
    else
      pure (cellv, joinCss [base_cell_css, "special-cell"])
  else if sc = "route-name" ∧ ck ∈ special_column_names then
    pure (cellv, joinCss [base_cell_css, "route-name-cell"])
  else if sc = "route-name" then do
    let r ← route_name_loop env doing_html [] [] false [] train_specs
    let separator := if doing_html then "<hr>" else "\n"
    pure (String.intercalate separator r.1,
      joinCss ([base_cell_css, "route-name-cell"] ++ r.2))
  else if sc = "updown" ∧ ck ∈ special_column_names then
    pure ("", joinCss [base_cell_css, "updown-cell"])
  else if sc = "updown" then do
    let cv ← match cv? with | none => throw .pyExc | some cv => pure cv
    pure (style_updown cv.reverse doing_html, joinCss [base_cell_css, "updown-cell"])
  else if (sc = "days" ∨ sc = "days-of-week") ∧ ck ∈ special_column_names then
    pure ("", joinCss [base_cell_css, "days-of-week-cell"])
  else if (sc = "days" ∨ sc = "days-of-week") ∧ cellv = "" then do
    let t0 ← match train_specs.head? with | none => throw .pyExc | some t => pure t
    let sty ← env.get_time_column_stylings t0 "class"
    pure ("", joinCss [base_cell_css, "days-of-week-cell", sty])
  else if sc = "days" ∨ sc = "days-of-week" then do
    let reference_stop_id := env.stop_code_to_stop_id cellv
    let t0 ← match train_specs.head? with | none => throw .pyExc | some t => pure t
    let my_trip ← trip_from_train_spec_local env t0
    let timepoint ← env.get_timepoint_from_trip_id my_trip.trip_id reference_stop_id
    let text ←
      match timepoint with
      | none => pure cellv
      | some tp => do
        let stop_tz ← match env.stops_tz reference_stop_id with
          | none => throw .pyExc
          | some tz => pure tz
        let zonediff := env.time.get_zonediff stop_tz
        let dt ← match tp.departure_time with
          | none => throw .typeErr
          | some dt => pure dt
        let departure := env.time.explode_timestr dt zonediff
        pure (env.time.day_string (some my_trip.service_id) departure.day)
    let sty ← env.get_time_column_stylings t0 "class"
    pure (text, joinCss [base_cell_css, "days-of-week-cell", sty])
  else if cellv ≠ "" ∧ cell_codes = none then
    pure (cellv, joinCss [base_cell_css, "special-cell"])
  else if (sc = "origin" ∨ sc = "destination") ∧ ck ∈ special_column_names then
    pure ("", joinCss [base_cell_css])
  else if sc = "origin" then do
    let sdf ← match stations_for_column with | none => throw .pyExc | some l => pure l
    let first_station_code ← match sdf.head? with | none => throw .pyExc | some c => pure c
    if first_station_code ∉ station_codes_list then
      pure (env.get_station_name_from first_station_code doing_multiline_text doing_html,
        joinCss [base_cell_css])
    else pure ("", joinCss [base_cell_css])
  else if sc = "destination" then do
    let sdf ← match stations_for_column with | none => throw .pyExc | some l => pure l
    let last_station_code ← match sdf.getLast? with | none => throw .pyExc | some c => pure c
    if last_station_code ∉ station_codes_list then
      pure (env.get_station_name_to last_station_code doing_multiline_text doing_html,
        joinCss [base_cell_css])
    else pure ("", joinCss [base_cell_css])
  else if ck = "station" ∨ ck = "stations" then
    pure (env.get_station_name_pretty station_code doing_html doing_multiline_text,
      joinCss [base_cell_css, "station-cell"])
  else if ck = "services" then
    pure ("", joinCss [base_cell_css, "services-cell"])
  else if ck = "access" then
    let access_str :=
      if env.station_has_accessible_platform station_code then
        env.accessible_icon_html doing_html
      else if env.station_has_inaccessible_platform station_code then
        env.inaccessible_icon_html doing_html
      else ""
    pure (access_str, joinCss [base_cell_css, "access-cell"])
  else if ck = "timezone" then do
    let stop_id := env.stop_code_to_stop_id station_code
    let stop_tz ← match env.stops_tz stop_id with
      | none => throw .pyExc
      | some tz => pure tz
    pure (env.zone_str stop_tz doing_html, joinCss [base_cell_css, "timezone-cell"])
  else do
    -- the normal case: fill in a time
    let stop_id := env.stop_code_to_stop_id station_code
    let stop_tz ← match env.stops_tz stop_id with
      | none => throw .pyExc
      | some tz => pure tz
    let to_check := train_specs_to_check cell_codes train_specs
    let r ← find_timepoint env to_check stop_id
    let train_spec := r.1
    let my_trip := r.2.1
    match r.2.2 with
    | none => do
      let css ←
        if to_check.length = 1 then do
          let sty ← env.get_time_column_stylings (to_check.headD "") "class"
          pure [base_cell_css, "blank-cell", sty]
        else pure [base_cell_css, "blank-cell"]
      pure ("", joinCss css)
    | some timepoint =>
      if cc_blank then do
        let css ←
          if to_check.length = 1 then do
            let sty ← env.get_time_column_stylings (to_check.headD "") "class"
            pure [base_cell_css, "blank-cell", sty]
          else pure [base_cell_css, "blank-cell"]
        pure ("", joinCss css)
      else do
        let sty ← env.get_time_column_stylings train_spec "class"
        let cv ← match cv? with | none => throw .pyExc | some cv => pure cv
        let calendar := if cv.use_daystring then some my_trip.service_id else none
        let has_baggage :=
          env.train_has_checked_baggage (env.train_spec_to_tsn train_spec)
            ∧ env.station_has_checked_baggage station_code
        let is_bus ←
          if cv.use_bus_icon_this_column then do
            let route ← route_from_train_spec_local env train_spec
            pure (decide (route.route_type = 3))
          else pure false
        let station_two_row ← ardp station_code
        let lf := layout_flags cell_codes station_two_row
        let fl : TPFlags :=
          ⟨doing_html, box_time_characters, cv.reverse, lf.two_row,
           cv.this_column_gets_ardp, true, false, cv.use_daystring,
           cv.long_days_box, cv.short_days_box, calendar,
           lf.is_first_stop, lf.is_last_stop,
           cv.use_baggage_icon_this_column, decide has_baggage,
           cv.use_bus_icon_this_column, is_bus, cv.no_rd⟩
        pure (timepoint_str env.time timepoint stop_tz fl,
          joinCss [base_cell_css, "time-cell", sty])

/-- One cell of the fill: read the cell codes from the raw text, apply a
simple cell substitution (written back into the spec grid, as the source's
`tt_spec.iloc[y, x] = cell_substitution` does), then dispatch through the
big match.  Returns the updated grid, the timetable text and the styler
string. -/
def fill_cell (env : FillEnv) (doing_html doing_multiline_text box_time_characters : Bool)
    (ardp : String → Except TTError Bool)
    (station_codes_list : List String)
    (column_key_str : String) (train_specs : List String)
    (cv? : Option ColumnVars) (stations_for_column : Option (List String))
    (csv : List (List String)) (y x : Nat) :
    Except TTError (List (List String) × String × String) :=
  let cell_codes := get_cell_codes (get2d csv y x) train_specs
  let csv :=
    match get_cell_substitution (get2d csv y x) with
    | some s => set2d csv y x s
    | none => csv
  (fill_cell_core env doing_html doing_multiline_text box_time_characters ardp
      station_codes_list column_key_str train_specs cv? stations_for_column
      cell_codes csv y x).map
    (fun r => (csv, r.1, r.2))

/-! ## The column loop and `fill_tt_spec` itself -/

/-- The plaintext side of `text_presentation.py` `get_time_column_header`:
`InputError` on an empty spec list, empty header when every spec is
`noheader`, else the slash-joined specs.  (The HTML side needs route
lookups and is supplied through the environment.) -/
def get_time_column_header_plain (train_specs : List String) : Except TTError String :=
  if train_specs = [] then throw .input
  else
    let fewer := train_specs.filter (fun ts => ¬pyEndsWith ts "noheader")
    if fewer = [] then pure ""
    else pure (String.intercalate " / " fewer)

/-- The bus-detection loop of the column match: walk the train specs and
stop at the first whose route is a bus (`route_type == 3`). -/
def use_bus_icon_loop (env : FillEnv) : List String → Except TTError Bool
  | [] => pure false
  | ts :: rest => do
    let ts := pyStrip (removesuffix ts "noheader")
    let route ← route_from_train_spec_local env ts
    if route.route_type = 3 then pure true else use_bus_icon_loop env rest

/-- The per-column part of the main loop before the row walk: classify the
column key, compute the column header and its styling, and (for a train
column) the option flags, bus/baggage detection and the train-spec list.
Special columns leave the previous train column's `ColumnVars` in place
(Python local-variable carry-over). -/
def process_column_header (env : FillEnv)
    (doing_html train_numbers_side_by_side use_bus_icon_in_cells : Bool)
    (column_options : List (List String)) (cv? : Option ColumnVars)
    (column_key_str : String) (x : Nat) :
    Except TTError (Option ColumnVars × List String × String × String) := do
  let ck := pyLower column_key_str
  if ck = "station" ∨ ck = "stations" then
    pure (cv?, [], env.station_column_header, "")
  else if ck = "services" then
    pure (cv?, [], env.services_column_header, "")
  else if ck = "access" then
    pure (cv?, [], env.access_column_header, "")
  else if ck = "timezone" then
    pure (cv?, [], env.timezone_column_header, "")
  else do
    let opts := column_options.getD x []
    let reverse := "reverse" ∈ opts
    let use_daystring := "days" ∈ opts
    let long_days_box := "long-days-box" ∈ opts
    let short_days_box := "short-days-box" ∈ opts
    let this_column_gets_ardp := "ardp" ∈ opts
    let no_rd := "no-rd" ∈ opts
    let train_specs := split_trains_spec column_key_str
    let column_header ←
      if doing_html then env.get_time_column_header_html train_specs train_numbers_side_by_side
      else get_time_column_header_plain train_specs
    let column_header_styling ←
      if doing_html then
        match train_specs.find? (fun ts => ¬pyEndsWith ts "noheader") with
        | some hs => if hs = "" then pure "" else env.get_time_column_stylings hs "attributes"
        | none => pure ""
      else pure ""
    let use_bus_icon_this_column ←
      if use_bus_icon_in_cells then use_bus_icon_loop env train_specs else pure false
    let use_baggage_icon_this_column :=
      train_specs.any (fun ts => env.train_has_checked_baggage (env.train_spec_to_tsn ts))
    pure (some ⟨reverse, use_daystring, long_days_box, short_days_box,
        this_column_gets_ardp, no_rd, use_bus_icon_this_column,
        use_baggage_icon_this_column⟩,
      train_specs, column_header, column_header_styling)

/-- The inner row walk of the main loop: one `fill_cell` per data row,
recording each write as `((y, x), text, css)` in iteration order and
threading the (possibly substitution-updated) grid. -/
def fill_rows (env : FillEnv) (doing_html doing_multiline_text box_time_characters : Bool)
    (ardp : String → Except TTError Bool) (station_codes_list : List String)
    (column_key_str : String) (train_specs : List String)
    (cv? : Option ColumnVars) (stations_for_column : Option (List String)) (x : Nat) :
    List Nat → List (List String) →
    Except TTError (List (List String) × List ((Nat × Nat) × String × String))
  | [], csv => pure (csv, [])
  | y :: rest, csv => do
    let r ← fill_cell env doing_html doing_multiline_text box_time_characters ardp
      station_codes_list column_key_str train_specs cv? stations_for_column csv y x
    let rr ← fill_rows env doing_html doing_multiline_text box_time_characters ardp
      station_codes_list column_key_str train_specs cv? stations_for_column x rest r.1
    pure (rr.1, ((y, x), r.2.1, r.2.2) :: rr.2)

/-- Loop state threaded across columns: the (mutable, in the source) grid,
the carried-over `ColumnVars`, and the carried-over per-column station list
used by `origin`/`destination` rows. -/
structure LoopState where
  csv : List (List String)
  cv? : Option ColumnVars
  stations_for_column : Option (List String)

/-- The per-column refresh of the cached station list (`core.py` caches
`stations_df_for_column` when the column has train specs, via a raw
dictionary access whose miss would be a KeyError); special columns keep the
previous value. -/
def stations_for_update (env : FillEnv) (train_specs : List String)
    (old : Option (List String)) : Except TTError (Option (List String)) :=
  if train_specs ≠ [] then
    match env.train_spec_to_trip_id
        (pyStrip (removesuffix (train_specs.headD "") "noheader")) with
    | none => throw .pyExc
    | some tid => pure (some (env.stations_list_from_trip_id tid))
  else pure old

/-- The outer column walk of the main loop: per column, compute the header
block, refresh the cached station list when the column has train specs, and
run the row walk.  Returns the final state, the header and header-styling
lists (in column order) and all cell writes (in iteration order). -/
def fill_columns (env : FillEnv)
    (doing_html doing_multiline_text box_time_characters : Bool)
    (train_numbers_side_by_side use_bus_icon_in_cells : Bool)
    (ardp : String → Except TTError Bool)
    (column_options : List (List String)) (station_codes_list : List String)
    (row_count : Nat) :
    List Nat → LoopState →
    Except TTError (LoopState × List String × List String × List ((Nat × Nat) × String × String))
  | [], st => pure (st, [], [], [])
  | x :: rest, st => do
    let column_key_str := pyStrip (get2d st.csv 0 x)
    let h ← process_column_header env doing_html train_numbers_side_by_side
      use_bus_icon_in_cells column_options st.cv? column_key_str x
    let cv? := h.1
    let train_specs := h.2.1
    let column_header := h.2.2.1
    let column_header_styling := h.2.2.2
    let stations_for_column ← stations_for_update env train_specs st.stations_for_column
    let rw ← fill_rows env doing_html doing_multiline_text box_time_characters ardp
      station_codes_list column_key_str train_specs cv? stations_for_column x
      (List.range' 1 (row_count - 1)) st.csv
    let rec_r ← fill_columns env doing_html doing_multiline_text box_time_characters
      train_numbers_side_by_side use_bus_icon_in_cells ardp column_options
      station_codes_list row_count rest ⟨rw.1, cv?, stations_for_column⟩
    pure (rec_r.1, column_header :: rec_r.2.1, column_header_styling :: rec_r.2.2.1,
      rw.2 ++ rec_r.2.2.2)

/-- The `is_ardp_station` argument of `fill_tt_spec` (`False`, `True`,
`"major"` or `"dwell"`). -/
inductive ArdpMode where
  | alwaysFalse
  | alwaysTrue
  | major
  | dwell
deriving Repr, DecidableEq

/-- The `_FilledTimetable` output of `fill_tt_spec`, extended with the
unique column labels and the trace of cell assignments performed by the
loop (each `(y, x)` is one `iloc` write into the timetable and one into
the styler). -/
structure FilledTimetable where
  timetable : List (List String)
  styler : List (List String)
  header_styling_list : List String
  headers : List String
  writes : List (Nat × Nat)
deriving Repr, DecidableEq

/-- The output-assembly step of `fill_tt_spec`: build the timetable grid,
the styler grid and the uniquified header row from the trace of cell
writes performed by the column loop. -/
def assemble_output (row_count column_count : Nat)
    (header_replacement_list header_styling_list : List String)
    (writes : List ((Nat × Nat) × String × String)) : FilledTimetable :=
  let cellOf := fun (y x : Nat) =>
    ((writes.find? (fun w => w.1 = (y, x))).map (fun w => w.2)).getD ("", "")
  let timetable := (List.range' 1 (row_count - 1)).map (fun y =>
    (List.range' 1 (column_count - 1)).map (fun x => (cellOf y x).1))
  let styler := (List.range' 1 (row_count - 1)).map (fun y =>
    (List.range' 1 (column_count - 1)).map (fun x => (cellOf y x).2))
  let unique_header_replacement_list :=
    header_replacement_list.enum.map
      (fun p => "<!-- " ++ toString p.1 ++ " -->" ++ p.2)
  ⟨timetable, styler, header_styling_list, unique_header_replacement_list,
    writes.map Prod.fst⟩

/-- The `DwellEnv` view of a `FillEnv` (what `make_stations_max_dwell_map`
receives inside `fill_tt_spec`: the same feed lookups plus the local trip
resolver). -/
def FillEnv.dwellEnv (env : FillEnv) : DwellEnv :=
  ⟨env.get_timepoint_from_trip_id, env.timestr_to_seconds,
   trip_from_train_spec_local env, env.stop_code_to_stop_id⟩

/-- The `is_ardp_station` function loading of `fill_tt_spec` (its `match`
over the mode argument): the dwell mode precomputes the max-dwell map and
looks stations up in it (a missing key would be a Python `KeyError`). -/
def make_ardp (env : FillEnv) (spec : TTSpecData) :
    ArdpMode → Except TTError (String → Except TTError Bool)
  | .alwaysFalse => pure (fun _ => pure false)
  | .alwaysTrue => pure (fun _ => pure true)
  | .major => pure (fun code => pure (env.is_standard_major_station code))
  | .dwell => do
    let m ← make_stations_max_dwell_map env.dwellEnv spec.aux_dwell_secs_cutoff
      (flatten_train_specs_list spec.get_train_specs_list) spec.get_stations_list
    pure (fun code =>
      match m.lookup code with
      | some b => pure b
      | none => throw .pyExc)

/-- `core.py` `fill_tt_spec`: fill a timetable from a TTSpec template.
Returns the filled timetable together with the final state of the spec
object (which the source mutates in place: `strip_omits`,
`calculate_column_options`, `augment_from_key_cell`, and cell
substitutions written back into the grid during the walk). -/
def fill_tt_spec (env : FillEnv) (spec : TTSpecData)
    (doing_html doing_multiline_text : Bool) (is_ardp_station : ArdpMode) :
    Except TTError (FilledTimetable × TTSpecData) := do
  let _reference_date ←
    match spec.aux_reference_date with
    | none => throw .input
    | some r => if r = "" then throw .input else pure r
  let train_numbers_side_by_side := spec.aux_train_numbers_side_by_side
  let use_bus_icon_in_cells := spec.aux_use_bus_icon_in_cells
  let box_time_characters := spec.aux_box_time_characters
  let spec ← spec.normalize env
  let ardp ← make_ardp env spec is_ardp_station
  let station_codes_list := spec.get_stations_list
  let row_count := spec.csv.length
  let column_count := (spec.csv.headD []).length
  let r ← fill_columns env doing_html doing_multiline_text box_time_characters
    train_numbers_side_by_side use_bus_icon_in_cells ardp spec.column_options
    station_codes_list row_count (List.range' 1 (column_count - 1))
    ⟨spec.csv, none, none⟩
  pure (assemble_output row_count column_count r.2.1 r.2.2.1 r.2.2.2,
    { spec with csv := r.1.csv })

/-! ## Concrete instances used by witnesses and counterexamples -/

/-- A concrete, fully computable instance of the external time/icon
environment, used to evaluate the embedding at specific inputs. -/
def cTimeEnv : TimeEnv :=
  ⟨fun _ => 0,
   fun t _ => ⟨0, 0, t⟩,
   fun d _ => d.txt,
   fun d _ => d.txt,
   fun _ _ => "Daily",
   "<br>",
   fun _ => "BAG",
   fun _ => "BUS"⟩

/-- A concrete timepoint at station CHI for the witness feed: 5 minutes of
dwell, ordinary pickup and drop-off. -/
def tpCHI : Timepoint := ⟨some "10:00:00", some "10:05:00", 0, 0, none⟩

/-- A concrete, fully computable fill environment: two trains 59 and 174;
train 59 stops at CHI (timepoint `tpCHI`), train 174 does not. -/
def cEnv : FillEnv :=
  { time := cTimeEnv
    train_spec_to_trip_id := fun ts =>
      if ts = "59" then some "t59" else if ts = "174" then some "t174" else none
    trips_rows_for_id := fun tid =>
      if tid = "t59" then [⟨"t59", "s59", "r59"⟩]
      else if tid = "t174" then [⟨"t174", "s174", "r174"⟩]
      else []
    routes_for_id := fun rid => [⟨rid, 2⟩]
    get_timepoint_from_trip_id := fun tid stop =>
      .ok (if tid = "t59" ∧ stop = "CHI" then some tpCHI else none)
    stations_list_from_trip_id := fun _ => ["CHI", "NYP"]
    stops_tz := fun _ => some "America/Chicago"
    timestr_to_seconds := fun t? =>
      match t? with
      | some "10:00:00" => 36000
      | some "10:05:00" => 36300
      | _ => 0
    stations_of := fun _ _ => .ok ["CHI", "NYP"]
    stop_code_to_stop_id := fun c => c
    get_station_name_pretty := fun c _ _ => c
    get_station_name_from := fun c _ _ => "from " ++ c
    get_station_name_to := fun c _ _ => "to " ++ c
    station_has_accessible_platform := fun _ => false
    station_has_inaccessible_platform := fun _ => false
    train_has_checked_baggage := fun _ => false
    station_has_checked_baggage := fun _ => false
    get_route_name := fun _ => "Lake Shore Limited"
    is_standard_major_station := fun _ => false
    train_spec_to_tsn := fun ts => ts
    get_time_column_stylings := fun ts _ => .ok ("color-" ++ ts)
    get_time_column_header_html := fun specs _ => .ok (String.intercalate " / " specs)
    style_route_name_for_column := fun r _ => r
    accessible_icon_html := fun _ => "ACC"
    inaccessible_icon_html := fun _ => "INACC"
    zone_str := fun tz _ => tz
    station_column_header := "Station"
    services_column_header := "Services"
    access_column_header := "Access"
    timezone_column_header := "Time Zone" }

/-- A minimal well-formed spec: one station row, one train column. -/
def cSpec : TTSpecData :=
  ⟨some "20231001", false, 300, false, false, [["", "59"], ["CHI", ""]], []⟩


/-! ## Claim-side auxiliary definitions -/

/-- The per-train dwell list at one stop, phrased from the claim: for each
train in order, its claim-described dwell contribution. -/
def claim_dwell_list (env : DwellEnv) (stop_id : String) :
    List String → Except TTError (List Int)
  | [] => pure []
  | t :: rest => do
    let d ← claim_dwell_contribution env stop_id t
    let ds ← claim_dwell_list env stop_id rest
    pure (d :: ds)

/-- The marker policy phrased from the (amended) claim: `R` for a
receive-only stop that is not the first, on the departure side only; `D`
for a discharge-only stop that is not the last, on the arrival side only;
`*` when both are restricted, on the first printed line only; `F` for any
GTFS flag-stop code (2 or 3), on the first printed line only; `L` when an
explicit inexact-timepoint field (`timepoint = 0`) is present and none of
the above classes applies, on the departure side; otherwise a single blank
space. -/
def rd_marker_policy (tp : Timepoint)
    (is_first_stop is_last_stop is_second_line is_arrival_line is_departure_line : Bool) : String :=
  let flag_stop := tp.drop_off_type = 2 ∨ tp.drop_off_type = 3
    ∨ tp.pickup_type = 2 ∨ tp.pickup_type = 3
  if tp.drop_off_type = 1 ∧ tp.pickup_type = 0 ∧ ¬is_first_stop ∧ ¬is_arrival_line then "R"
  else if tp.drop_off_type = 0 ∧ tp.pickup_type = 1 ∧ ¬is_last_stop ∧ ¬is_departure_line then "D"
  else if tp.drop_off_type = 1 ∧ tp.pickup_type = 1 ∧ ¬is_second_line then "*"
  else if flag_stop ∧ ¬is_second_line then "F"
  else if ¬(tp.drop_off_type = 1 ∧ tp.pickup_type = 0)
      ∧ ¬(tp.drop_off_type = 0 ∧ tp.pickup_type = 1)
      ∧ ¬(tp.drop_off_type = 1 ∧ tp.pickup_type = 1)
      ∧ ¬flag_stop
      ∧ tp.timepoint_field = some 0 ∧ ¬is_arrival_line then "L"
  else " "

/-! ## Theorems for the claims -/

/-- C10 (amended): for EVERY train-spec list `L`, the cell-code parser
accepts a bare `first`/`last` (optionally followed by a two-row token) with
`train_spec = None` and the corresponding flag; and a bare `blank` is
rejected (returns `None`) exactly when the cleaned train-spec list does not
contain the empty string — when it does (a degenerate column key such as
`"59/"` produces one), `blank` parses as that empty train spec plus the
blank code and IS accepted. -/
theorem tk_C10_bare_codes (L : List String) :
    get_cell_codes "first" L = some ⟨none, true, false, false, false⟩
    ∧ get_cell_codes "last" L = some ⟨none, false, true, false, false⟩
    ∧ get_cell_codes "first two_row" L = some ⟨none, true, false, false, true⟩
    ∧ get_cell_codes "last two-row" L = some ⟨none, false, true, false, true⟩
    ∧ get_cell_codes "first tworow" L = some ⟨none, true, false, false, true⟩
    ∧ get_cell_codes "blank" L
        = (if "" ∉ L.map (fun ts => pyStrip (removesuffix ts "noheader")) then none
           else some ⟨some "", false, false, true, false⟩) :=
  ⟨rfl, rfl, rfl, rfl, rfl, rfl⟩

/-- C10 witness: the amended theorem applied at the ordinary list
`["59", "174 noheader"]` (bare codes accepted, `blank` rejected) and at the
degenerate list `[""]` (bare codes still accepted, `blank` accepted too). -/
theorem tk_C10_witness :
    get_cell_codes "first" ["59", "174 noheader"] = some ⟨none, true, false, false, false⟩
    ∧ get_cell_codes "last" ["59", "174 noheader"] = some ⟨none, false, true, false, false⟩
    ∧ get_cell_codes "first" [""] = some ⟨none, true, false, false, false⟩
    ∧ get_cell_codes "last" [""] = some ⟨none, false, true, false, false⟩
    ∧ get_cell_codes "blank" ["59", "174 noheader"] = none
    ∧ get_cell_codes "blank" [""] = some ⟨some "", false, false, true, false⟩ := by
  refine ⟨(tk_C10_bare_codes ["59", "174 noheader"]).1,
    (tk_C10_bare_codes ["59", "174 noheader"]).2.1,
    (tk_C10_bare_codes [""]).1, (tk_C10_bare_codes [""]).2.1, ?_, ?_⟩
  · rw [(tk_C10_bare_codes ["59", "174 noheader"]).2.2.2.2.2]
    decide
  · rw [(tk_C10_bare_codes [""]).2.2.2.2.2]
    decide

/-- C10 counterexample: when the column's train-spec list contains the empty
string (a degenerate key such as `"59/"` produces one), a bare `blank` IS
accepted as an override, so "never accepted" fails as universally stated. -/
theorem tk_C10_counterexample :
    get_cell_codes "blank" [""] = some ⟨some "", false, false, true, false⟩
    ∧ get_cell_codes "blank" [""] ≠ none := by decide

/-- C4 counterexample: a stop with ordinary pickup/drop-off codes but an
explicit GTFS `timepoint = 0` column yields the marker `L` (may leave
early), not the blank space the claim's "otherwise" clause requires.  The
placement of `L` is gated on the line NOT being an arrival line (the
source: "This goes on departure line, always"), not on it being the first
printed line: the last two conjuncts show `L` emitted on a second-printed
departure line and suppressed (blank) on a first-printed arrival line. -/
theorem tk_C4_counterexample :
    get_rd_str ⟨some "10:00:00", some "10:00:00", 0, 0, some 0⟩ false
      false false false false false false = "L"
    ∧ ("L" : String) ≠ " " ∧ ("L" : String) ≠ "R" ∧ ("L" : String) ≠ "D"
    ∧ ("L" : String) ≠ "*" ∧ ("L" : String) ≠ "F"
    ∧ get_rd_str ⟨some "10:00:00", some "10:00:00", 0, 0, some 0⟩ false
      false false false true false true = "L"
    ∧ get_rd_str ⟨some "10:00:00", some "10:00:00", 0, 0, some 0⟩ false
      false false true false true false = " " := by decide

/-- C4 (amended): in plaintext mode the marker character of `get_rd_str` is
exactly the claim's policy extended with the `L` (inexact timepoint) case,
which fires when none of the restricted/flag-stop patterns applies, the
GTFS timepoint field is 0 and the line is not an arrival line — `L` goes on
the departure line, always, regardless of printed order; in HTML mode the
same character is wrapped in the fixed-width `box-rd` span and bolded when
non-blank. -/
theorem tk_C4_marker_policy (tp : Timepoint)
    (is_first_stop is_last_stop is_first_line is_second_line
      is_arrival_line is_departure_line : Bool) :
    get_rd_str tp false is_first_stop is_last_stop is_first_line is_second_line
        is_arrival_line is_departure_line
      = rd_marker_policy tp is_first_stop is_last_stop is_second_line
        is_arrival_line is_departure_line
    ∧ get_rd_str tp true is_first_stop is_last_stop is_first_line is_second_line
        is_arrival_line is_departure_line
      = "<span class=\"box-rd\">"
        ++ (if get_rd_str tp false is_first_stop is_last_stop is_first_line is_second_line
              is_arrival_line is_departure_line ≠ " "
            then "<b>" ++ get_rd_str tp false is_first_stop is_last_stop is_first_line
              is_second_line is_arrival_line is_departure_line ++ "</b>"
            else get_rd_str tp false is_first_stop is_last_stop is_first_line
              is_second_line is_arrival_line is_departure_line)
        ++ "</span>" := by
  constructor
  · unfold get_rd_str rd_marker_policy
    split_ifs <;> simp_all <;> split_ifs <;> simp_all
  · rfl

/-- C4 witness: the amended policy theorem applied at a concrete
receive-only timepoint, evaluated on both sides. -/
theorem tk_C4_witness :
    get_rd_str ⟨some "09:00:00", some "09:00:00", 1, 0, none⟩ false
        false false false false false false
      = rd_marker_policy ⟨some "09:00:00", some "09:00:00", 1, 0, none⟩
        false false false false false
    ∧ rd_marker_policy ⟨some "09:00:00", some "09:00:00", 1, 0, none⟩
        false false false false false = "R" :=
  ⟨(tk_C4_marker_policy ⟨some "09:00:00", some "09:00:00", 1, 0, none⟩
      false false false false false false).1, by decide⟩

/-- The spec used by the C2 counterexample: the cell `"99 first"` names
train 99, which is not in its column's train-spec list `["59"]`. -/
def cSpecC2 : TTSpecData :=
  ⟨some "20231001", false, 300, false, false, [["", "59"], ["CHI", "99 first"]], []⟩

/-- C2 counterexample: a cell whose override text names a train absent from
the column's list does NOT abort the fill with an Input error — the parser
returns `None` and the whole fill succeeds, rendering the text as a
free-text passthrough cell styled `special-cell`. -/
theorem tk_C2_counterexample :
    get_cell_codes "99 first" ["59"] = none
    ∧ (fill_tt_spec cEnv cSpecC2 false true .dwell).map
        (fun r => (r.1.timetable, r.1.styler)) = .ok ([["99 first"]], [[" special-cell"]])
    ∧ (fill_tt_spec cEnv cSpecC2 false true .dwell).isOk = true := by
  exact ⟨by decide, rfl, rfl⟩

/-- C2 (amended): an override text naming an unlisted train is not parsed as
an override at all (any parsed override's train always lies in the cleaned
column list), and a station-row cell holding non-blank text with no parsed
override renders as a free-text passthrough with `special-cell` styling —
no Input error is raised for it. -/
theorem tk_C2_unlisted_train_passthrough :
    (∀ (code : String) (L : List String) (cc : CellCodes),
      get_cell_codes code L = some cc →
      ∀ t, cc.train_spec = some t →
        t ∈ L.map (fun ts => pyStrip (removesuffix ts "noheader")))
    ∧ (∀ (env : FillEnv) (dh dm btc : Bool) (ardp : String → Except TTError Bool)
        (scl : List String) (ck : String) (ts : List String)
        (cv? : Option ColumnVars) (sfc : Option (List String))
        (csv : List (List String)) (y x : Nat),
        pyLower (get2d csv y 0)
            ∉ (["", "route-name", "updown", "days", "days-of-week"] : List String) →
        get2d csv y x ≠ "" →
        fill_cell_core env dh dm btc ardp scl ck ts cv? sfc none csv y x
          = .ok (get2d csv y x, " special-cell")) := by
  constructor
  · intro code L cc h t ht
    unfold get_cell_codes at h
    repeat' split_ifs at h
    all_goals simp_all
    all_goals aesop
  · intro env dh dm btc ardp scl ck ts cv? sfc csv y x hs hc
    simp only [List.mem_cons, List.mem_singleton, not_or] at hs
    obtain ⟨h1, h2, h3, h4, h5⟩ := hs
    simp only [fill_cell_core]
    rw [if_neg (fun hcon => h1 hcon.1)]
    rw [if_neg h1]
    rw [if_neg (fun hcon => h2 hcon.1)]
    rw [if_neg h2]
    rw [if_neg (fun hcon => h3 hcon.1)]
    rw [if_neg h3]
    rw [if_neg (fun hcon => hcon.1.elim h4 h5.1)]
    rw [if_neg (fun hcon => hcon.1.elim h4 h5.1)]
    rw [if_neg (fun hcon => hcon.elim h4 h5.1)]
    rw [if_pos ⟨hc, trivial⟩]
    rfl

/-- C2 witness: the amended theorem applied at concrete inputs — a parsed
override's train is in the cleaned list, and an unlisted-train cell is
rendered as passthrough. -/
theorem tk_C2_witness :
    ("59" ∈ (["59"] : List String).map (fun ts => pyStrip (removesuffix ts "noheader")))
    ∧ fill_cell_core cEnv false true false (fun _ => pure false) [] "59" ["59"] none none none
        [["", "59"], ["CHI", "hello"]] 1 1 = .ok ("hello", " special-cell") := by
  constructor
  · exact tk_C2_unlisted_train_passthrough.1 "59 last" ["59"]
      ⟨some "59", false, true, false, false⟩ (by decide) "59" rfl
  · exact tk_C2_unlisted_train_passthrough.2 cEnv false true false (fun _ => pure false)
      [] "59" ["59"] none none [["", "59"], ["CHI", "hello"]] 1 1 (by decide) (by decide)

/-- `Except.bind` on a success, for rewriting do-chains. -/
theorem except_bind_ok {ε α β : Type} (a : α) (f : α → Except ε β) :
    (Except.ok a : Except ε α) >>= f = f a := rfl

/-- `Except.bind` on an error, for rewriting do-chains. -/
theorem except_bind_error {ε α β : Type} (e : ε) (f : α → Except ε β) :
    (Except.error e : Except ε α) >>= f = Except.error e := rfl

/-- `claim_dwell_contribution` is the trip lookup composed with
`get_dwell_secs` (definitional). -/
theorem claim_dwell_contribution_eq (env : DwellEnv) (stop_id t : String) :
    claim_dwell_contribution env stop_id t
      = env.trip_from_train_spec t >>= (fun trip => get_dwell_secs env trip.trip_id stop_id) := rfl

/-- The source's max-accumulator loop computes the fold of `max` over the
claim's per-train dwell list. -/
theorem stations_max_dwell_loop_eq (env : DwellEnv) (stop_id : String) :
    ∀ (ts : List String) (acc : Int),
      stations_max_dwell_loop env stop_id acc ts
        = (claim_dwell_list env stop_id ts).map (fun ds => ds.foldl max acc) := by
  intro ts
  induction ts with
  | nil => intro acc; rfl
  | cons t rest ih =>
    intro acc
    have hc := claim_dwell_contribution_eq env stop_id t
    cases h1 : env.trip_from_train_spec t with
    | error e =>
      rw [h1, except_bind_error] at hc
      simp only [stations_max_dwell_loop, claim_dwell_list]
      rw [h1, except_bind_error, hc, except_bind_error]
      rfl
    | ok trip =>
      rw [h1, except_bind_ok] at hc
      cases h2 : get_dwell_secs env trip.trip_id stop_id with
      | error e =>
        rw [h2] at hc
        simp only [stations_max_dwell_loop, claim_dwell_list]
        rw [h1, except_bind_ok, h2, except_bind_error, hc, except_bind_error]
        rfl
      | ok d =>
        rw [h2] at hc
        simp only [stations_max_dwell_loop, claim_dwell_list]
        rw [h1, except_bind_ok, h2, except_bind_ok, hc, except_bind_ok, ih]
        cases h3 : claim_dwell_list env stop_id rest with
        | error e => rfl
        | ok ds => rfl

/-- C3: a station is classified two-row by `make_stations_max_dwell_map`
exactly when the maximum — over every train referenced anywhere in the spec
— of the claim-described dwell contribution (zero when the train does not
stop there; zero when the stop has `drop_off_type = 1` or
`pickup_type = 1`; else departure seconds minus arrival seconds) meets or
exceeds `dwell_secs_cutoff`. -/
theorem tk_C3_dwell_classifier (env : DwellEnv) (cutoff : Int) (trains : List String) :
    ∀ (stations : List String) (m : List (String × Bool)),
      make_stations_max_dwell_map env cutoff trains stations = .ok m →
      ∀ st b, (st, b) ∈ m →
        ∃ ds : List Int,
          claim_dwell_list env (env.stop_code_to_stop_id st) trains = .ok ds
          ∧ (b = true ↔ ds.foldl max 0 ≥ cutoff) := by
  intro stations
  induction stations with
  | nil =>
    intro m hm st b hmem
    simp only [make_stations_max_dwell_map] at hm
    cases hm
    simp at hmem
  | cons s rest ih =>
    intro m hm st b hmem
    simp only [make_stations_max_dwell_map] at hm
    cases hloop : stations_max_dwell_loop env (env.stop_code_to_stop_id s) 0 trains with
    | error e => rw [hloop, except_bind_error] at hm; cases hm
    | ok v =>
      rw [hloop, except_bind_ok] at hm
      cases htail : make_stations_max_dwell_map env cutoff trains rest with
      | error e => rw [htail, except_bind_error] at hm; cases hm
      | ok tail =>
        rw [htail, except_bind_ok] at hm
        cases hm
        rcases List.mem_cons.mp hmem with heq | htl
        · injection heq with h1 h2
          subst h1
          subst h2
          have hl := stations_max_dwell_loop_eq env (env.stop_code_to_stop_id st) trains 0
          rw [hloop] at hl
          cases hcl : claim_dwell_list env (env.stop_code_to_stop_id st) trains with
          | error e => rw [hcl] at hl; cases hl
          | ok ds =>
            rw [hcl] at hl
            refine ⟨ds, rfl, ?_⟩
            have hv : v = ds.foldl max 0 := by
              simp only [Except.map] at hl
              cases hl
              rfl
            rw [hv]
            simp
        · exact ih tail htail st b htl

/-- A concrete dwell environment realizing the spec's worked example: at
station ALB train A dwells 360 seconds and train B dwells 120 seconds. -/
def cDwellEnv : DwellEnv :=
  ⟨fun tid stop => .ok (if stop = "ALB" then
      (if tid = "tA" then some ⟨some "09:00:00", some "09:06:00", 0, 0, none⟩
       else if tid = "tB" then some ⟨some "10:00:00", some "10:02:00", 0, 0, none⟩
       else none)
    else none),
   fun t? =>
    match t? with
    | some "09:00:00" => 32400
    | some "09:06:00" => 32760
    | some "10:00:00" => 36000
    | some "10:02:00" => 36120
    | _ => 0,
   fun ts =>
    if ts = "A" then .ok ⟨"tA", "sA", "rA"⟩
    else if ts = "B" then .ok ⟨"tB", "sB", "rB"⟩
    else .error .input,
   fun c => c⟩

/-- C3 witness: at cutoff 300, with one train dwelling 360s and another
120s at ALB, the classifier marks ALB two-row, and the theorem's
characterization holds there (the dwell list is `[360, 120]`). -/
theorem tk_C3_witness :
    make_stations_max_dwell_map cDwellEnv 300 ["A", "B"] ["ALB"] = .ok [("ALB", true)]
    ∧ claim_dwell_list cDwellEnv (cDwellEnv.stop_code_to_stop_id "ALB") ["A", "B"]
        = .ok [360, 120]
    ∧ (∃ ds : List Int,
        claim_dwell_list cDwellEnv (cDwellEnv.stop_code_to_stop_id "ALB") ["A", "B"] = .ok ds
        ∧ (true = true ↔ ds.foldl max 0 ≥ 300)) := by
  refine ⟨rfl, rfl, ?_⟩
  exact tk_C3_dwell_classifier cDwellEnv 300 ["A", "B"] ["ALB"] [("ALB", true)]
    rfl "ALB" true (by decide)

/-- C7: for a two-row cell with zero dwell (equal raw arrival and departure
times) and no first/last-stop override, the formatter emits exactly one
time-carrying line: the arrival side gets the full line and the departure
side the width-preserving blank assembly when the stop is discharge-only,
and vice versa otherwise; the two lines are joined (swapped under
`reverse`) by the mode's line break. -/
theorem tk_C7_zero_dwell_two_row (env : TimeEnv) (tp : Timepoint) (stop_tz t : String)
    (fl : TPFlags)
    (harr : tp.arrival_time = some t) (hdep : tp.departure_time = some t)
    (h2 : fl.two_row = true) (hf : fl.is_first_stop = false) (hl : fl.is_last_stop = false) :
    timepoint_str env tp stop_tz fl
      = (if fl.reverse then
          two_row_departure_line env tp stop_tz fl
            ++ (if fl.doing_html then env.safe_br else "\n")
            ++ two_row_arrival_line env tp stop_tz fl
        else
          two_row_arrival_line env tp stop_tz fl
            ++ (if fl.doing_html then env.safe_br else "\n")
            ++ two_row_departure_line env tp stop_tz fl)
    ∧ (if tp_discharge_only tp fl then
        two_row_arrival_line env tp stop_tz fl = two_row_arrival_full_line env tp stop_tz fl
        ∧ two_row_departure_line env tp stop_tz fl = two_row_departure_blank_line env tp fl
      else
        two_row_arrival_line env tp stop_tz fl = two_row_arrival_blank_line env tp fl
        ∧ two_row_departure_line env tp stop_tz fl
            = two_row_departure_full_line env tp stop_tz fl) := by
  have hnd : tp_no_dwell tp = true := by
    simp [tp_no_dwell, harr, hdep]
  constructor
  · simp only [timepoint_str, h2]
    cases hr : fl.reverse <;> simp [hr]
  · cases hdo : tp_discharge_only tp fl with
    | true =>
      have hcond := hdo
      simp only [tp_discharge_only, hl] at hcond
      have hro : tp_receive_only tp fl = false := by
        simp only [tp_receive_only, hf]
        split_ifs with hx
        · exact absurd hx (by simp_all)
        · rfl
      simp [two_row_arrival_line, two_row_departure_line, hf, hl, hnd, hdo, hro]
    | false =>
      simp [two_row_arrival_line, two_row_departure_line, hf, hl, hnd, hdo]

/-- The concrete zero-dwell timepoint for the C7 witness. -/
def c7tp : Timepoint := ⟨some "10:00:00", some "10:00:00", 0, 0, none⟩

/-- The concrete flag set for the C7 witness: plaintext two-row mode. -/
def c7fl : TPFlags := { TPFlags.default with two_row := true }

/-- C7 witness: the theorem applied at a concrete zero-dwell two-row cell;
concretely the arrival line is the (empty, in bare plaintext) blank
assembly and the departure line carries the time. -/
theorem tk_C7_witness :
    (timepoint_str cTimeEnv c7tp "tz" c7fl
      = (if c7fl.reverse then
          two_row_departure_line cTimeEnv c7tp "tz" c7fl
            ++ (if c7fl.doing_html then cTimeEnv.safe_br else "\n")
            ++ two_row_arrival_line cTimeEnv c7tp "tz" c7fl
        else
          two_row_arrival_line cTimeEnv c7tp "tz" c7fl
            ++ (if c7fl.doing_html then cTimeEnv.safe_br else "\n")
            ++ two_row_departure_line cTimeEnv c7tp "tz" c7fl)
    ∧ (if tp_discharge_only c7tp c7fl then
        two_row_arrival_line cTimeEnv c7tp "tz" c7fl
            = two_row_arrival_full_line cTimeEnv c7tp "tz" c7fl
        ∧ two_row_departure_line cTimeEnv c7tp "tz" c7fl
            = two_row_departure_blank_line cTimeEnv c7tp c7fl
      else
        two_row_arrival_line cTimeEnv c7tp "tz" c7fl
            = two_row_arrival_blank_line cTimeEnv c7tp c7fl
        ∧ two_row_departure_line cTimeEnv c7tp "tz" c7fl
            = two_row_departure_full_line cTimeEnv c7tp "tz" c7fl))
    ∧ timepoint_str cTimeEnv c7tp "tz" c7fl = "\n 10:00:00"
    ∧ two_row_arrival_blank_line cTimeEnv c7tp c7fl = ""
    ∧ two_row_departure_full_line cTimeEnv c7tp "tz" c7fl = " 10:00:00" := by
  refine ⟨?_, by decide, by decide, by decide⟩
  exact tk_C7_zero_dwell_two_row cTimeEnv c7tp "tz" "10:00:00" c7fl rfl rfl rfl rfl rfl

/-- The concrete timepoint of the C5 counterexample: GTFS
`drop_off_type = 1, pickup_type = 0` — which is *receive-only*. -/
def c5tp : Timepoint := ⟨some "10:00:00", some "10:05:00", 1, 0, none⟩

/-- C5 counterexample: for `drop_off_type = 1, pickup_type = 0` (not flagged
last stop, two-row mode) the code renders the `R` marker on the departure
line and blanks the *arrival* line — no `D` marker appears anywhere and the
departure line is not blank, refuting the claim as stated (the claim
inverted the GTFS codes). -/
theorem tk_C5_counterexample :
    timepoint_str cTimeEnv c5tp "tz" { TPFlags.default with two_row := true }
      = "\nR10:05:00"
    ∧ pySplitOn '\n' "\nR10:05:00" = ["", "R10:05:00"]
    ∧ "\nR10:05:00".data.contains 'D' = false
    ∧ ("R10:05:00" : String) ≠ "" := by
  exact ⟨by decide, by decide, by decide, by decide⟩

/-- C5 (amended): for a *discharge-only* timepoint (`pickup_type = 1,
drop_off_type = 0`), not flagged first or last stop, in plaintext with the
marker slot enabled: the one-row cell carries the `D` marker and the
arrival time, and in two-row mode the arrival line is the full line whose
marker is `D` while the departure line is the width-preserving blank
assembly. -/
theorem tk_C5_discharge_only (env : TimeEnv) (tp : Timepoint) (stop_tz : String)
    (fl : TPFlags)
    (hp : tp.pickup_type = 1) (hd : tp.drop_off_type = 0)
    (hl : fl.is_last_stop = false) (hf : fl.is_first_stop = false)
    (hh : fl.doing_html = false) (hnr : fl.no_rd = false) :
    (fl.two_row = false →
      timepoint_str env tp stop_tz fl
        = (if fl.use_ar_dp_str then "   " else "") ++ "D"
          ++ fmt_arrival_time_str env tp stop_tz fl
          ++ fmt_arrival_daystring env tp stop_tz fl
          ++ (if ¬fl.use_baggage_icon then ""
              else if fl.has_baggage then get_baggage_str env false
              else get_blank_baggage_str false)
          ++ (if ¬fl.use_bus_icon then ""
              else if fl.is_bus then get_bus_str env false
              else get_blank_bus_str false))
    ∧ (fl.two_row = true →
        two_row_arrival_line env tp stop_tz fl = two_row_arrival_full_line env tp stop_tz fl
        ∧ get_rd_str tp fl.doing_html fl.is_first_stop fl.is_last_stop
            (!fl.reverse) fl.reverse true false = "D"
        ∧ two_row_departure_line env tp stop_tz fl = two_row_departure_blank_line env tp fl
        ∧ timepoint_str env tp stop_tz fl
            = (if fl.reverse then
                two_row_departure_blank_line env tp fl ++ "\n"
                  ++ two_row_arrival_full_line env tp stop_tz fl
              else
                two_row_arrival_full_line env tp stop_tz fl ++ "\n"
                  ++ two_row_departure_blank_line env tp fl)) := by
  have hdo : tp_discharge_only tp fl = true := by
    simp [tp_discharge_only, hp, hd]
  have hro : tp_receive_only tp fl = false := by
    simp [tp_receive_only, hp, hd, hf]
  constructor
  · intro h2r
    have hrd : get_rd_str tp false false false false false false false = "D" := by
      simp [get_rd_str, hp, hd]
    simp [timepoint_str, h2r, hh, hf, hl, hnr, hdo, hrd]
  · intro h2r
    have hrdA : get_rd_str tp fl.doing_html fl.is_first_stop fl.is_last_stop
        (!fl.reverse) fl.reverse true false = "D" := by
      simp [get_rd_str, hp, hd, hl, hh]
    have l1 : two_row_arrival_line env tp stop_tz fl
        = two_row_arrival_full_line env tp stop_tz fl := by
      simp [two_row_arrival_line, hf, hro, hdo]
    have l2 : two_row_departure_line env tp stop_tz fl
        = two_row_departure_blank_line env tp fl := by
      simp [two_row_departure_line, hl, hdo]
    refine ⟨l1, hrdA, l2, ?_⟩
    rw [← l1, ← l2]
    cases hr : fl.reverse <;> simp [timepoint_str, h2r, hr, hh]

/-- The concrete discharge-only timepoint for the C5 witness. -/
def c5dtp : Timepoint := ⟨some "10:00:00", some "10:05:00", 0, 1, none⟩

/-- C5 witness: the amended theorem applied in one-row mode at a concrete
discharge-only timepoint, with the evaluated output `D10:00:00` (marker `D`
followed by the arrival time). -/
theorem tk_C5_witness :
    (TPFlags.default.two_row = false →
      timepoint_str cTimeEnv c5dtp "tz" TPFlags.default
        = (if TPFlags.default.use_ar_dp_str then "   " else "") ++ "D"
          ++ fmt_arrival_time_str cTimeEnv c5dtp "tz" TPFlags.default
          ++ fmt_arrival_daystring cTimeEnv c5dtp "tz" TPFlags.default
          ++ (if ¬TPFlags.default.use_baggage_icon then ""
              else if TPFlags.default.has_baggage then get_baggage_str cTimeEnv false
              else get_blank_baggage_str false)
          ++ (if ¬TPFlags.default.use_bus_icon then ""
              else if TPFlags.default.is_bus then get_bus_str cTimeEnv false
              else get_blank_bus_str false))
    ∧ timepoint_str cTimeEnv c5dtp "tz" TPFlags.default = "D10:00:00" :=
  ⟨(tk_C5_discharge_only cTimeEnv c5dtp "tz" TPFlags.default rfl rfl rfl rfl rfl rfl).1,
   by decide⟩

/-- The parsed cell code of `"59 last"` in a `"59/174"` column. -/
def c59last : CellCodes := ⟨some "59", false, true, false, false⟩

/-- C6: first/last-stop flags reaching the formatter come only from cell
overrides (none ⇒ both false, the station's two-row classification is kept);
the override `"59 last"` in column `"59/174"` parses to a last-stop override
for train 59 alone, forces one-row layout over any station classification,
restricts the timepoint check to train 59, makes the default cell arm emit
`timepoint_str` with exactly those flags, and a one-row last-stop cell
renders arrival-only. -/
theorem tk_C6_flags_from_overrides :
    (∀ st : Bool, layout_flags none st = ⟨false, false, st⟩)
    ∧ (∀ (cc : CellCodes) (st : Bool),
        (layout_flags (some cc) st).is_first_stop = cc.first
        ∧ (layout_flags (some cc) st).is_last_stop = cc.last)
    ∧ get_cell_codes "59 last" ["59", "174"] = some c59last
    ∧ (∀ st : Bool, layout_flags (some c59last) st = ⟨false, true, false⟩)
    ∧ train_specs_to_check (some c59last) ["59", "174"] = ["59"]
    ∧ (∀ (env : FillEnv) (dh dm btc : Bool) (ardp : String → Except TTError Bool)
        (scl : List String) (cv : ColumnVars) (sfc : Option (List String))
        (csv : List (List String)) (y x : Nat) (tz sty : String) (trip : Trip)
        (tp : Timepoint) (b : Bool),
        pyLower (get2d csv y 0)
            ∉ (["", "route-name", "updown", "days", "days-of-week",
                "origin", "destination"] : List String) →
        get2d csv y x = "59 last" →
        env.stops_tz (env.stop_code_to_stop_id (get2d csv y 0)) = some tz →
        trip_from_train_spec_local env "59" = .ok trip →
        env.get_timepoint_from_trip_id trip.trip_id
            (env.stop_code_to_stop_id (get2d csv y 0)) = .ok (some tp) →
        env.get_time_column_stylings "59" "class" = .ok sty →
        ardp (get2d csv y 0) = .ok b →
        cv.use_bus_icon_this_column = false →
        fill_cell_core env dh dm btc ardp scl "59/174" ["59", "174"] (some cv) sfc
            (some c59last) csv y x
          = .ok (timepoint_str env.time tp tz
              ⟨dh, btc, cv.reverse, false, cv.this_column_gets_ardp, true, false,
               cv.use_daystring, cv.long_days_box, cv.short_days_box,
               (if cv.use_daystring then some trip.service_id else none),
               false, true, cv.use_baggage_icon_this_column,
               decide (env.train_has_checked_baggage (env.train_spec_to_tsn "59")
                 ∧ env.station_has_checked_baggage (get2d csv y 0)),
               cv.use_bus_icon_this_column, false, cv.no_rd⟩,
             joinCss ["", "time-cell", sty]))
    ∧ (∀ (env : TimeEnv) (tp : Timepoint) (tz : String) (fl : TPFlags),
        fl.two_row = false → fl.is_last_stop = true → fl.is_first_stop = false →
        fl.doing_html = false →
        timepoint_str env tp tz fl
          = (if fl.use_ar_dp_str then "Ar " else "")
            ++ (if fl.no_rd then ""
                else get_rd_str tp false false true false false false false)
            ++ fmt_arrival_time_str env tp tz fl
            ++ fmt_arrival_daystring env tp tz fl
            ++ (if ¬fl.use_baggage_icon then ""
                else if fl.has_baggage then get_baggage_str env false
                else get_blank_baggage_str false)
            ++ (if ¬fl.use_bus_icon then ""
                else if fl.is_bus then get_bus_str env false
                else get_blank_bus_str false)) := by
  refine ⟨fun st => rfl, fun cc st => ⟨rfl, rfl⟩, by decide, fun st => rfl, by decide,
    ?_, ?_⟩
  · intro env dh dm btc ardp scl cv sfc csv y x tz sty trip tp b
      hsc hcell htz htrip htp hsty hardp hbus
    simp only [List.mem_cons, List.mem_singleton, not_or] at hsc
    obtain ⟨h1, h2, h3, h4, h5, h6, h7⟩ := hsc
    simp only [fill_cell_core]
    rw [if_neg (fun hcon => h1 hcon.1)]
    rw [if_neg h1]
    rw [if_neg (fun hcon => h2 hcon.1)]
    rw [if_neg h2]
    rw [if_neg (fun hcon => h3 hcon.1)]
    rw [if_neg h3]
    rw [if_neg (fun hcon => hcon.1.elim h4 h5)]
    rw [if_neg (fun hcon => hcon.1.elim h4 h5)]
    rw [if_neg (fun hcon => hcon.elim h4 h5)]
    rw [if_neg (fun hcon => Option.noConfusion hcon.2)]
    rw [if_neg (fun hcon => hcon.1.elim h6 h7.1)]
    rw [if_neg h6]
    rw [if_neg h7.1]
    rw [if_neg (by decide)]
    rw [if_neg (by decide)]
    rw [if_neg (by decide)]
    rw [if_neg (by decide)]
    rw [htz]
    simp [find_timepoint, train_specs_to_check, layout_flags, htrip, htp, hsty, hardp, hbus,
      except_bind_ok, c59last]
  · intro env tp tz fl h2r hlast hfirst hh
    have hdo : tp_discharge_only tp fl = true := by
      simp [tp_discharge_only, hlast]
    have hrd : get_rd_str tp fl.doing_html fl.is_first_stop fl.is_last_stop
        false false false false
        = get_rd_str tp false false true false false false false := by
      rw [hh, hfirst, hlast]
    simp [timepoint_str, fmt_ar_str, h2r, hh, hfirst, hlast, hdo, hrd]

/-- C6 witness: the theorem applied at a concrete grid with cell
`"59 last"` in column `"59/174"` over the concrete environment; the cell
renders as the one-row arrival-only string for train 59 with time-cell
styling, even though the station classifier says two-row. -/
theorem tk_C6_witness :
    fill_cell_core cEnv false true false (fun _ => pure true) ["CHI"] "59/174" ["59", "174"]
        (some ⟨false, false, false, false, false, false, false, false⟩) none (some c59last)
        [["", "59/174"], ["CHI", "59 last"]] 1 1
      = .ok (" 10:00:00", " time-cell color-59")
    ∧ get_cell_codes "59 last" ["59", "174"] = some c59last := by
  constructor
  · have h := tk_C6_flags_from_overrides.2.2.2.2.2.1 cEnv false true false (fun _ => pure true)
      ["CHI"] ⟨false, false, false, false, false, false, false, false⟩ none
      [["", "59/174"], ["CHI", "59 last"]] 1 1 "America/Chicago" "color-59"
      ⟨"t59", "s59", "r59"⟩ tpCHI true (by decide) (by decide) rfl rfl rfl rfl rfl rfl
    rw [h]
    rfl
  · exact tk_C6_flags_from_overrides.2.2.1

/-- The canonical enumeration of the cells visited by the main loop: for
each data column x (left to right), each data row y (top to bottom). -/
def writeEnum (row_count column_count : Nat) : List (Nat × Nat) :=
  (List.range' 1 (column_count - 1)).flatMap
    (fun x => (List.range' 1 (row_count - 1)).map (fun y => (y, x)))

/-- Occurrence count of a number in a `range'` block. -/
theorem count_range'_eq (a : Nat) : ∀ (n s : Nat),
    (List.range' s n).count a = if s ≤ a ∧ a < s + n then 1 else 0 := by
  intro n
  induction n with
  | zero =>
    intro s
    rw [if_neg (by omega)]
    simp
  | succ n ih =>
    intro s
    rw [List.range'_succ, List.count_cons, ih (s + 1)]
    split_ifs <;> simp_all <;> omega

/-- Occurrence count of a pair in one mapped column block. -/
theorem count_pair_map (x' x y : Nat) : ∀ l : List Nat,
    (l.map (fun y' => (y', x'))).count (y, x) = if x' = x then l.count y else 0 := by
  intro l
  induction l with
  | nil => simp
  | cons a t ih =>
    simp only [List.map_cons, List.count_cons, ih]
    split_ifs <;> simp_all [List.count_cons, Prod.ext_iff]

/-- Occurrence count of a pair in the flatMap of column blocks. -/
theorem count_flatMap_blocks (R y x : Nat) : ∀ xs : List Nat,
    ((xs.flatMap (fun x' => (List.range' 1 (R - 1)).map (fun y' => (y', x')))).count (y, x))
      = if 1 ≤ y ∧ y < 1 + (R - 1) then xs.count x else 0 := by
  intro xs
  induction xs with
  | nil => simp
  | cons a t ih =>
    rw [List.flatMap_cons, List.count_append, ih, count_pair_map, count_range'_eq]
    split_ifs <;> simp_all [List.count_cons] <;> omega

/-- Each in-range cell occurs exactly once in the write enumeration. -/
theorem count_writeEnum (R C y x : Nat) (h1 : 1 ≤ y) (h2 : y < R) (h3 : 1 ≤ x) (h4 : x < C) :
    (writeEnum R C).count (y, x) = 1 := by
  unfold writeEnum
  rw [count_flatMap_blocks, if_pos ⟨h1, by omega⟩, count_range'_eq, if_pos ⟨h3, by omega⟩]

/-- Membership in the write enumeration characterizes the in-range cells. -/
theorem mem_writeEnum (R C : Nat) (p : Nat × Nat) :
    p ∈ writeEnum R C
      ↔ (1 ≤ p.1 ∧ p.1 < 1 + (R - 1) ∧ 1 ≤ p.2 ∧ p.2 < 1 + (C - 1)) := by
  cases p with
  | mk y x =>
    unfold writeEnum
    simp only [List.mem_flatMap, List.mem_map, List.mem_range'_1]
    constructor
    · rintro ⟨x', ⟨hx1, hx2⟩, y', ⟨hy1, hy2⟩, heq⟩
      injection heq with e1 e2
      subst e1; subst e2
      exact ⟨hy1, hy2, hx1, hx2⟩
    · rintro ⟨hy1, hy2, hx1, hx2⟩
      exact ⟨x, ⟨hx1, hx2⟩, y, ⟨hy1, hy2⟩, rfl⟩

/-- `Except.map` on a success. -/
theorem except_map_ok {ε α β : Type} (f : α → β) (a : α) :
    (Except.ok a : Except ε α).map f = Except.ok (f a) := rfl

/-- `Except.map` on an error. -/
theorem except_map_error {ε α β : Type} (f : α → β) (e : ε) :
    (Except.error e : Except ε α).map f = Except.error e := rfl

/-- On success, `fill_cell` returns exactly the substitution-updated grid
(the grid is otherwise untouched by the dispatch). -/
theorem fill_cell_ok_csv (env : FillEnv) (dh dm btc : Bool)
    (ardp : String → Except TTError Bool) (scl : List String) (ck : String)
    (ts : List String) (cv? : Option ColumnVars) (sfc : Option (List String))
    (csv : List (List String)) (y x : Nat)
    (r : List (List String) × String × String)
    (h : fill_cell env dh dm btc ardp scl ck ts cv? sfc csv y x = .ok r) :
    r.1 = (match get_cell_substitution (get2d csv y x) with
           | some s => set2d csv y x s
           | none => csv) := by
  simp only [fill_cell] at h
  cases hc : fill_cell_core env dh dm btc ardp scl ck ts cv? sfc
      (get_cell_codes (get2d csv y x) ts)
      (match get_cell_substitution (get2d csv y x) with
       | some s => set2d csv y x s
       | none => csv) y x with
  | error e => rw [hc, except_map_error] at h; cases h
  | ok rr => rw [hc, except_map_ok] at h; cases h; rfl

/-- `set2d` preserves the number of rows. -/
theorem set2d_length (g : List (List String)) (y x : Nat) (v : String) :
    (set2d g y x v).length = g.length := by
  simp [set2d]

/-- `set2d` at a data row (y ≥ 1) preserves the header row. -/
theorem set2d_headD (g : List (List String)) (y x : Nat) (v : String) (hy : 1 ≤ y) :
    (set2d g y x v).headD [] = g.headD [] := by
  unfold set2d
  cases g with
  | nil => simp
  | cons b t =>
    cases y with
    | zero => omega
    | succ n => simp [List.set]

/-- On success, `fill_cell` at a data row preserves the grid's row count and
its header row. -/
theorem fill_cell_ok_dims (env : FillEnv) (dh dm btc : Bool)
    (ardp : String → Except TTError Bool) (scl : List String) (ck : String)
    (ts : List String) (cv? : Option ColumnVars) (sfc : Option (List String))
    (csv : List (List String)) (y x : Nat)
    (r : List (List String) × String × String)
    (h : fill_cell env dh dm btc ardp scl ck ts cv? sfc csv y x = .ok r)
    (hy : 1 ≤ y) :
    r.1.length = csv.length ∧ r.1.headD [] = csv.headD [] := by
  have hcsv := fill_cell_ok_csv env dh dm btc ardp scl ck ts cv? sfc csv y x r h
  cases hs : get_cell_substitution (get2d csv y x) with
  | none => rw [hs] at hcsv; rw [hcsv]; exact ⟨rfl, rfl⟩
  | some s =>
    rw [hs] at hcsv
    rw [hcsv]
    exact ⟨set2d_length csv y x s, set2d_headD csv y x s hy⟩

/-- On success, the row walk writes exactly its row list (tagged with the
column) in order, and preserves the grid's row count and header row. -/
theorem fill_rows_ok (env : FillEnv) (dh dm btc : Bool)
    (ardp : String → Except TTError Bool) (scl : List String) (ck : String)
    (ts : List String) (cv? : Option ColumnVars) (sfc : Option (List String)) (x : Nat) :
    ∀ (ys : List Nat) (csv csv' : List (List String))
      (ws : List ((Nat × Nat) × String × String)),
      fill_rows env dh dm btc ardp scl ck ts cv? sfc x ys csv = .ok (csv', ws) →
      (∀ y ∈ ys, 1 ≤ y) →
      ws.map Prod.fst = ys.map (fun y => (y, x))
      ∧ csv'.length = csv.length ∧ csv'.headD [] = csv.headD [] := by
  intro ys
  induction ys with
  | nil =>
    intro csv csv' ws h hy
    cases h
    exact ⟨rfl, rfl, rfl⟩
  | cons y rest ih =>
    intro csv csv' ws h hy
    simp only [fill_rows] at h
    cases hc : fill_cell env dh dm btc ardp scl ck ts cv? sfc csv y x with
    | error e => rw [hc, except_bind_error] at h; cases h
    | ok r =>
      rw [hc, except_bind_ok] at h
      cases hr : fill_rows env dh dm btc ardp scl ck ts cv? sfc x rest r.1 with
      | error e => rw [hr, except_bind_error] at h; cases h
      | ok rr =>
        rw [hr, except_bind_ok] at h
        cases h
        have hdims := fill_cell_ok_dims env dh dm btc ardp scl ck ts cv? sfc csv y x r hc
          (hy y (List.mem_cons_self y rest))
        have hih := ih r.1 rr.1 rr.2 (by rw [hr])
          (fun y' hy' => hy y' (List.mem_cons_of_mem y hy'))
        refine ⟨?_, ?_, ?_⟩
        · simp only [List.map_cons, hih.1]
        · rw [hih.2.1, hdims.1]
        · rw [hih.2.2, hdims.2]

/-- On success, the column walk's write trace is exactly the enumeration of
data cells for its column list, and the grid keeps its row count and header
row. -/
theorem fill_columns_ok (env : FillEnv) (dh dm btc tnss ubic : Bool)
    (ardp : String → Except TTError Bool) (copts : List (List String))
    (scl : List String) (row_count : Nat) :
    ∀ (xs : List Nat) (st : LoopState)
      (res : LoopState × List String × List String × List ((Nat × Nat) × String × String)),
      fill_columns env dh dm btc tnss ubic ardp copts scl row_count xs st = .ok res →
      res.2.2.2.map Prod.fst
          = xs.flatMap (fun x => (List.range' 1 (row_count - 1)).map (fun y => (y, x)))
      ∧ res.1.csv.length = st.csv.length ∧ res.1.csv.headD [] = st.csv.headD [] := by
  intro xs
  induction xs with
  | nil =>
    intro st res h
    cases h
    exact ⟨rfl, rfl, rfl⟩
  | cons x rest ih =>
    intro st res h
    simp only [fill_columns] at h
    cases hph : process_column_header env dh tnss ubic copts st.cv?
        (pyStrip (get2d st.csv 0 x)) x with
    | error e => rw [hph, except_bind_error] at h; cases h
    | ok hd =>
      rw [hph, except_bind_ok] at h
      cases hsf : stations_for_update env hd.2.1 st.stations_for_column with
      | error e => rw [hsf, except_bind_error] at h; cases h
      | ok sfc =>
        rw [hsf, except_bind_ok] at h
        cases hfr : fill_rows env dh dm btc ardp scl (pyStrip (get2d st.csv 0 x)) hd.2.1
            hd.1 sfc x (List.range' 1 (row_count - 1)) st.csv with
        | error e => rw [hfr, except_bind_error] at h; cases h
        | ok rw_ =>
          rw [hfr, except_bind_ok] at h
          cases hrec : fill_columns env dh dm btc tnss ubic ardp copts scl row_count rest
              ⟨rw_.1, hd.1, sfc⟩ with
          | error e => rw [hrec, except_bind_error] at h; cases h
          | ok rec_r =>
            rw [hrec, except_bind_ok] at h
            cases h
            have hrows := fill_rows_ok env dh dm btc ardp scl
              (pyStrip (get2d st.csv 0 x)) hd.2.1 hd.1 sfc x
              (List.range' 1 (row_count - 1)) st.csv rw_.1 rw_.2 (by rw [hfr])
              (fun y hy => (List.mem_range'_1.mp hy).1)
            have hih := ih ⟨rw_.1, hd.1, sfc⟩ rec_r (by rw [hrec])
            refine ⟨?_, ?_, ?_⟩
            · rw [List.flatMap_cons]
              simp only [List.map_append, hih.1, hrows.1]
            · rw [hih.2.1]
              exact hrows.2.1
            · rw [hih.2.2]
              exact hrows.2.2

/-- `throw` then bind, for rewriting do-chains. -/
theorem except_throw_bind {ε α β : Type} (e : ε) (f : α → Except ε β) :
    (throw e : Except ε α) >>= f = Except.error e := rfl

/-- `pure` then bind, for rewriting do-chains. -/
theorem except_pure_bind {ε α β : Type} (a : α) (f : α → Except ε β) :
    (pure a : Except ε α) >>= f = f a := rfl

/-- C1: whenever `fill_tt_spec` accepts a spec, both output grids have
exactly (rows−1)×(cols−1) cells — rows and cols being the dimensions of the
(normalized, returned) spec grid — and the loop's write trace visits every
data cell exactly once: it equals the canonical enumeration, so each
in-range cell is assigned exactly once in the timetable and in the styler,
and nothing outside the data range is ever written. -/
theorem tk_C1_grid_shape (env : FillEnv) (spec : TTSpecData) (dh dm : Bool) (mode : ArdpMode)
    (ft : FilledTimetable) (spec' : TTSpecData)
    (hok : fill_tt_spec env spec dh dm mode = .ok (ft, spec')) :
    ft.timetable.length = spec'.csv.length - 1
    ∧ (∀ row ∈ ft.timetable, row.length = (spec'.csv.headD []).length - 1)
    ∧ ft.styler.length = spec'.csv.length - 1
    ∧ (∀ row ∈ ft.styler, row.length = (spec'.csv.headD []).length - 1)
    ∧ ft.writes = writeEnum spec'.csv.length (spec'.csv.headD []).length
    ∧ (∀ y x : Nat, 1 ≤ y → y < spec'.csv.length → 1 ≤ x →
        x < (spec'.csv.headD []).length → ft.writes.count (y, x) = 1)
    ∧ (∀ p ∈ ft.writes, 1 ≤ p.1 ∧ p.1 < 1 + (spec'.csv.length - 1) ∧ 1 ≤ p.2
        ∧ p.2 < 1 + ((spec'.csv.headD []).length - 1)) := by
  simp only [fill_tt_spec] at hok
  cases href : spec.aux_reference_date with
  | none =>
    simp only [href] at hok
    rw [except_throw_bind] at hok
    cases hok
  | some rd =>
    simp only [href] at hok
    by_cases hrd : rd = ""
    · rw [if_pos hrd, except_throw_bind] at hok; cases hok
    · rw [if_neg hrd, except_pure_bind] at hok
      cases hn : TTSpecData.normalize env spec with
      | error e => rw [hn, except_bind_error] at hok; cases hok
      | ok nspec =>
        rw [hn, except_bind_ok] at hok
        cases ha : make_ardp env nspec mode with
        | error e => rw [ha, except_bind_error] at hok; cases hok
        | ok ardp =>
          rw [ha, except_bind_ok] at hok
          cases hfc : fill_columns env dh dm spec.aux_box_time_characters
              spec.aux_train_numbers_side_by_side spec.aux_use_bus_icon_in_cells ardp
              nspec.column_options nspec.get_stations_list nspec.csv.length
              (List.range' 1 ((nspec.csv.headD []).length - 1))
              ⟨nspec.csv, none, none⟩ with
          | error e => rw [hfc, except_bind_error] at hok; cases hok
          | ok res =>
            rw [hfc, except_bind_ok] at hok
            have hcols := fill_columns_ok env dh dm spec.aux_box_time_characters
              spec.aux_train_numbers_side_by_side spec.aux_use_bus_icon_in_cells ardp
              nspec.column_options nspec.get_stations_list nspec.csv.length
              (List.range' 1 ((nspec.csv.headD []).length - 1))
              ⟨nspec.csv, none, none⟩ res (by rw [hfc])
            cases hok
            have hlen : res.1.csv.length = nspec.csv.length := hcols.2.1
            have hhead : res.1.csv.headD [] = nspec.csv.headD [] := hcols.2.2
            refine ⟨?_, ?_, ?_, ?_, ?_, ?_, ?_⟩
            all_goals simp only [assemble_output, hlen, hhead]
            · simp [List.length_range']
            · intro row hrow
              simp only [List.mem_map] at hrow
              obtain ⟨yy, _, rfl⟩ := hrow
              simp [List.length_range']
            · simp [List.length_range']
            · intro row hrow
              simp only [List.mem_map] at hrow
              obtain ⟨yy, _, rfl⟩ := hrow
              simp [List.length_range']
            · exact hcols.1
            · intro y x h1 h2 h3 h4
              rw [hcols.1]
              exact count_writeEnum nspec.csv.length (nspec.csv.headD []).length y x h1
                (by omega) h3 (by omega)
            · intro p hp
              rw [hcols.1] at hp
              exact (mem_writeEnum nspec.csv.length (nspec.csv.headD []).length p).mp hp

/-- The concrete filled timetable produced by `fill_tt_spec` on `cSpec`. -/
def cFT : FilledTimetable :=
  ⟨[[" 10:00:00\n 10:05:00"]], [[" time-cell color-59"]], [""], ["<!-- 0 -->59"], [(1, 1)]⟩

/-- The concrete final spec state produced by `fill_tt_spec` on `cSpec`. -/
def cSpecOut : TTSpecData :=
  ⟨some "20231001", false, 300, false, false, [["", "59"], ["CHI", ""]], [[], []]⟩

/-- C1 witness: the shape theorem applied at the concrete 2×2 spec, whose
fill succeeds with a 1×1 output grid and a single write at (1,1). -/
theorem tk_C1_witness :
    fill_tt_spec cEnv cSpec false true .dwell = .ok (cFT, cSpecOut)
    ∧ cFT.timetable.length = cSpecOut.csv.length - 1
    ∧ cFT.writes.count (1, 1) = 1 := by
  have hok : fill_tt_spec cEnv cSpec false true ArdpMode.dwell = .ok (cFT, cSpecOut) := rfl
  have h := tk_C1_grid_shape cEnv cSpec false true .dwell cFT cSpecOut hok
  exact ⟨hok, h.1, h.2.2.2.2.2.1 1 1 (by decide) (by decide) (by decide) (by decide)⟩

/-! ## Helper lemmas for the idempotence and frame claims (C8, C9) -/

/-- Inversion of a successful `Except` bind: the first stage succeeded and
the continuation succeeded on its value. -/
theorem except_bind_ok_inv {ε α β : Type} (e : Except ε α) (f : α → Except ε β) (b : β)
    (h : e >>= f = .ok b) : ∃ a, e = .ok a ∧ f a = .ok b := by
  cases e with
  | error err => cases h
  | ok a => exact ⟨a, rfl, h⟩

/-- `pure` in `Except` is `.ok`. -/
theorem except_pure_eq {ε α : Type} (a : α) : (pure a : Except ε α) = .ok a := rfl

/-- When no row is an omit row, `strip_omits` is the identity. -/
theorem strip_omits_fix (spec : TTSpecData)
    (h : spec.csv.filter (fun row => row.getD 0 "" ≠ "omit") = spec.csv) :
    spec.strip_omits = spec := by
  unfold TTSpecData.strip_omits
  rw [h]

/-- When row 1 is not the column-options marker row, `calculate_column_options`
only installs the all-empty option list. -/
theorem calc_nonmarker (spec : TTSpecData)
    (h : pyLower (get2d spec.csv 1 0) ∉ (["column-options", "column_options"] : List String)) :
    spec.calculate_column_options
      = { spec with column_options := List.replicate (spec.csv.headD []).length [] } := by
  unfold TTSpecData.calculate_column_options
  rw [if_pos h]

/-- When the key cell is blank, `augment_from_key_cell` returns the spec
unchanged. -/
theorem augment_blank (env : FillEnv) (spec : TTSpecData)
    (h : get2d spec.csv 0 0 = "") :
    spec.augment_from_key_cell env = .ok spec := by
  unfold TTSpecData.augment_from_key_cell
  simp only [h, if_pos]
  rfl

/-- A spec with no omit rows, no column-options marker row and a blank key
cell is (up to the installed empty option list) a fixed point of the
normalization block. -/
theorem normalize_fixpoint (env : FillEnv) (spec : TTSpecData)
    (hstrip : spec.csv.filter (fun row => row.getD 0 "" ≠ "omit") = spec.csv)
    (hco : pyLower (get2d spec.csv 1 0) ∉ (["column-options", "column_options"] : List String))
    (hkey : get2d spec.csv 0 0 = "") :
    TTSpecData.normalize env spec
      = .ok { spec with column_options := List.replicate (spec.csv.headD []).length [] } := by
  unfold TTSpecData.normalize
  rw [strip_omits_fix spec hstrip, calc_nonmarker spec hco]
  exact augment_blank env _ hkey

/-- `calculate_column_options` never touches the aux settings. -/
theorem calc_aux (s : TTSpecData) :
    (s.calculate_column_options).aux_reference_date = s.aux_reference_date
    ∧ (s.calculate_column_options).aux_train_numbers_side_by_side
        = s.aux_train_numbers_side_by_side
    ∧ (s.calculate_column_options).aux_dwell_secs_cutoff = s.aux_dwell_secs_cutoff
    ∧ (s.calculate_column_options).aux_use_bus_icon_in_cells = s.aux_use_bus_icon_in_cells
    ∧ (s.calculate_column_options).aux_box_time_characters = s.aux_box_time_characters := by
  unfold TTSpecData.calculate_column_options
  split_ifs <;> exact ⟨rfl, rfl, rfl, rfl, rfl⟩

/-- `augment_from_key_cell` never touches the aux settings. -/
theorem augment_aux (env : FillEnv) (s n : TTSpecData)
    (h : s.augment_from_key_cell env = .ok n) :
    n.aux_reference_date = s.aux_reference_date
    ∧ n.aux_train_numbers_side_by_side = s.aux_train_numbers_side_by_side
    ∧ n.aux_dwell_secs_cutoff = s.aux_dwell_secs_cutoff
    ∧ n.aux_use_bus_icon_in_cells = s.aux_use_bus_icon_in_cells
    ∧ n.aux_box_time_characters = s.aux_box_time_characters := by
  unfold TTSpecData.augment_from_key_cell at h
  by_cases h0 : get2d s.csv 0 0 = ""
  · simp only [h0, if_pos] at h
    rw [except_pure_eq] at h
    cases h
    exact ⟨rfl, rfl, rfl, rfl, rfl⟩
  · rw [if_neg h0] at h
    by_cases h1 : ¬("stations of ".data.isPrefixOf (get2d s.csv 0 0).data)
    · rw [if_pos h1] at h
      cases h
    · rw [if_neg h1] at h
      obtain ⟨a, _, h2⟩ := except_bind_ok_inv _ _ _ h
      rw [except_pure_eq] at h2
      cases h2
      exact ⟨rfl, rfl, rfl, rfl, rfl⟩

/-- The normalization block never touches the aux settings (the source
mutates only the grid and the `column_options` attribute). -/
theorem normalize_aux (env : FillEnv) (s n : TTSpecData)
    (h : TTSpecData.normalize env s = .ok n) :
    n.aux_reference_date = s.aux_reference_date
    ∧ n.aux_train_numbers_side_by_side = s.aux_train_numbers_side_by_side
    ∧ n.aux_dwell_secs_cutoff = s.aux_dwell_secs_cutoff
    ∧ n.aux_use_bus_icon_in_cells = s.aux_use_bus_icon_in_cells
    ∧ n.aux_box_time_characters = s.aux_box_time_characters := by
  unfold TTSpecData.normalize at h
  have ha := augment_aux env _ n h
  have hc := calc_aux s.strip_omits
  exact ⟨ha.1.trans hc.1, ha.2.1.trans hc.2.1, ha.2.2.1.trans hc.2.2.1,
    ha.2.2.2.1.trans hc.2.2.2.1, ha.2.2.2.2.trans hc.2.2.2.2⟩

/-- When no visited cell of the column has a substitution, the row walk
leaves the grid untouched. -/
theorem fill_rows_nosub (env : FillEnv) (dh dm btc : Bool)
    (ardp : String → Except TTError Bool) (scl : List String) (ck : String)
    (ts : List String) (cv? : Option ColumnVars) (sfc : Option (List String)) (x : Nat) :
    ∀ (ys : List Nat) (csv csv' : List (List String))
      (ws : List ((Nat × Nat) × String × String)),
      fill_rows env dh dm btc ardp scl ck ts cv? sfc x ys csv = .ok (csv', ws) →
      (∀ y ∈ ys, get_cell_substitution (get2d csv y x) = none) →
      csv' = csv := by
  intro ys
  induction ys with
  | nil =>
    intro csv csv' ws h hy
    cases h
    rfl
  | cons y rest ih =>
    intro csv csv' ws h hy
    simp only [fill_rows] at h
    cases hc : fill_cell env dh dm btc ardp scl ck ts cv? sfc csv y x with
    | error e => rw [hc, except_bind_error] at h; cases h
    | ok r =>
      rw [hc, except_bind_ok] at h
      have hr1 : r.1 = csv := by
        have hcell := fill_cell_ok_csv env dh dm btc ardp scl ck ts cv? sfc csv y x r hc
        have h0 := hy y (List.mem_cons_self y rest)
        simp only [h0] at hcell
        exact hcell
      cases hrr : fill_rows env dh dm btc ardp scl ck ts cv? sfc x rest r.1 with
      | error e => rw [hrr, except_bind_error] at h; cases h
      | ok rr =>
        rw [hrr, except_bind_ok] at h
        cases h
        rw [hr1] at hrr
        exact ih csv rr.1 rr.2 (by rw [hrr])
          (fun y' hy' => hy y' (List.mem_cons_of_mem y hy'))

/-- When no visited data cell has a substitution, the whole column walk
leaves the grid untouched. -/
theorem fill_columns_nosub (env : FillEnv) (dh dm btc tnss ubic : Bool)
    (ardp : String → Except TTError Bool) (copts : List (List String))
    (scl : List String) (row_count : Nat) :
    ∀ (xs : List Nat) (st : LoopState)
      (res : LoopState × List String × List String × List ((Nat × Nat) × String × String)),
      fill_columns env dh dm btc tnss ubic ardp copts scl row_count xs st = .ok res →
      (∀ x ∈ xs, ∀ y ∈ List.range' 1 (row_count - 1),
        get_cell_substitution (get2d st.csv y x) = none) →
      res.1.csv = st.csv := by
  intro xs
  induction xs with
  | nil =>
    intro st res h hy
    cases h
    rfl
  | cons x rest ih =>
    intro st res h hy
    simp only [fill_columns] at h
    cases hph : process_column_header env dh tnss ubic copts st.cv?
        (pyStrip (get2d st.csv 0 x)) x with
    | error e => rw [hph, except_bind_error] at h; cases h
    | ok hd =>
      rw [hph, except_bind_ok] at h
      cases hsf : stations_for_update env hd.2.1 st.stations_for_column with
      | error e => rw [hsf, except_bind_error] at h; cases h
      | ok sfc =>
        rw [hsf, except_bind_ok] at h
        cases hfr : fill_rows env dh dm btc ardp scl (pyStrip (get2d st.csv 0 x)) hd.2.1
            hd.1 sfc x (List.range' 1 (row_count - 1)) st.csv with
        | error e => rw [hfr, except_bind_error] at h; cases h
        | ok rw_ =>
          rw [hfr, except_bind_ok] at h
          have hrw1 : rw_.1 = st.csv :=
            fill_rows_nosub env dh dm btc ardp scl (pyStrip (get2d st.csv 0 x)) hd.2.1
              hd.1 sfc x (List.range' 1 (row_count - 1)) st.csv rw_.1 rw_.2 (by rw [hfr])
              (fun y hyy => hy x (List.mem_cons_self x rest) y hyy)
          cases hrec : fill_columns env dh dm btc tnss ubic ardp copts scl row_count rest
              ⟨rw_.1, hd.1, sfc⟩ with
          | error e => rw [hrec, except_bind_error] at h; cases h
          | ok rec_r =>
            rw [hrec, except_bind_ok] at h
            cases h
            have hih := ih ⟨rw_.1, hd.1, sfc⟩ rec_r (by rw [hrec])
              (fun x' hx' y hyy => by
                show get_cell_substitution (get2d rw_.1 y x') = none
                rw [hrw1]
                exact hy x' (List.mem_cons_of_mem x hx') y hyy)
            exact hih.trans hrw1

/-- Inversion of a successful `fill_tt_spec`: extract the reference date,
the normalized spec, the station classifier and the loop result, together
with the equations defining the output. -/
theorem fill_tt_spec_inv (env : FillEnv) (spec : TTSpecData) (dh dm : Bool) (mode : ArdpMode)
    (ft : FilledTimetable) (spec' : TTSpecData)
    (hok : fill_tt_spec env spec dh dm mode = .ok (ft, spec')) :
    ∃ rd nspec ardp res,
      spec.aux_reference_date = some rd ∧ rd ≠ ""
      ∧ TTSpecData.normalize env spec = .ok nspec
      ∧ make_ardp env nspec mode = .ok ardp
      ∧ fill_columns env dh dm spec.aux_box_time_characters
          spec.aux_train_numbers_side_by_side spec.aux_use_bus_icon_in_cells ardp
          nspec.column_options nspec.get_stations_list nspec.csv.length
          (List.range' 1 ((nspec.csv.headD []).length - 1)) ⟨nspec.csv, none, none⟩ = .ok res
      ∧ ft = assemble_output nspec.csv.length (nspec.csv.headD []).length
          res.2.1 res.2.2.1 res.2.2.2
      ∧ spec' = { nspec with csv := res.1.csv } := by
  simp only [fill_tt_spec] at hok
  cases href : spec.aux_reference_date with
  | none =>
    simp only [href] at hok
    rw [except_throw_bind] at hok
    cases hok
  | some rd =>
    simp only [href] at hok
    by_cases hrd : rd = ""
    · rw [if_pos hrd, except_throw_bind] at hok; cases hok
    · rw [if_neg hrd, except_pure_bind] at hok
      cases hn : TTSpecData.normalize env spec with
      | error e => rw [hn, except_bind_error] at hok; cases hok
      | ok nspec =>
        rw [hn, except_bind_ok] at hok
        cases ha : make_ardp env nspec mode with
        | error e => rw [ha, except_bind_error] at hok; cases hok
        | ok ardp =>
          rw [ha, except_bind_ok] at hok
          cases hfc : fill_columns env dh dm spec.aux_box_time_characters
              spec.aux_train_numbers_side_by_side spec.aux_use_bus_icon_in_cells ardp
              nspec.column_options nspec.get_stations_list nspec.csv.length
              (List.range' 1 ((nspec.csv.headD []).length - 1))
              ⟨nspec.csv, none, none⟩ with
          | error e => rw [hfc, except_bind_error] at hok; cases hok
          | ok res =>
            rw [hfc, except_bind_ok] at hok
            cases hok
            exact ⟨rd, nspec, ardp, res, rfl, hrd, rfl, ha, hfc, rfl, rfl⟩

/-- Reconstruction of `fill_tt_spec` from its stages: given the stage
results, the fill succeeds and returns the assembled output and the
normalized spec with the loop's final grid written back. -/
theorem fill_tt_spec_decomp (env : FillEnv) (spec : TTSpecData) (dh dm : Bool)
    (mode : ArdpMode) (rd : String) (nspec : TTSpecData)
    (ardp : String → Except TTError Bool)
    (res : LoopState × List String × List String × List ((Nat × Nat) × String × String))
    (h1 : spec.aux_reference_date = some rd) (h2 : rd ≠ "")
    (h3 : TTSpecData.normalize env spec = .ok nspec)
    (h4 : make_ardp env nspec mode = .ok ardp)
    (h5 : fill_columns env dh dm spec.aux_box_time_characters
        spec.aux_train_numbers_side_by_side spec.aux_use_bus_icon_in_cells ardp
        nspec.column_options nspec.get_stations_list nspec.csv.length
        (List.range' 1 ((nspec.csv.headD []).length - 1)) ⟨nspec.csv, none, none⟩ = .ok res) :
    fill_tt_spec env spec dh dm mode
      = .ok (assemble_output nspec.csv.length (nspec.csv.headD []).length
          res.2.1 res.2.2.1 res.2.2.2, { nspec with csv := res.1.csv }) := by
  simp only [fill_tt_spec, h1]
  rw [if_neg h2, except_pure_bind, h3, except_bind_ok, h4, except_bind_ok, h5, except_bind_ok]
  rfl

/-- A spec whose column-options row sets `reverse` on the train column, with
an `updown` row that renders the reading direction. -/
def cSpecRev : TTSpecData :=
  ⟨some "20231001", false, 300, false, false,
   [["", "59"], ["column-options", "reverse"], ["updown", ""]], []⟩

/-- The result of the first fill of `cSpecRev`: the column-options row has
been consumed (deleted from the grid and turned into the `column_options`
attribute), and `reverse` makes the updown cell read "Read Up". -/
def cFTRev1 : FilledTimetable :=
  ⟨[["Read Up"]], [[" updown-cell"]], [""], ["<!-- 0 -->59"], [(1, 1)]⟩

/-- The spec state after the first fill of `cSpecRev`: the marker row is
gone from the grid. -/
def cSpecRev1 : TTSpecData :=
  ⟨some "20231001", false, 300, false, false,
   [["", "59"], ["updown", ""]], [["column-options"], ["reverse"]]⟩

/-- The result of re-running the fill on the mutated spec: with the marker
row gone, `reverse` is no longer set and the updown cell reads "Read Down". -/
def cFTRev2 : FilledTimetable :=
  ⟨[["Read Down"]], [[" updown-cell"]], [""], ["<!-- 0 -->59"], [(1, 1)]⟩

/-- The spec state after the second fill: the option lists are reset to
empty. -/
def cSpecRev2 : TTSpecData :=
  ⟨some "20231001", false, 300, false, false,
   [["", "59"], ["updown", ""]], [[], []]⟩

/-- C8 counterexample: re-running the fill on the same spec object does not
yield identical output.  The fill mutates the spec in place
(`calculate_column_options` deletes the column-options row), so the second
invocation on the spec left by the first one sees no `reverse` option and
renders "Read Down" where the first run rendered "Read Up". -/
theorem tk_C8_counterexample :
    fill_tt_spec cEnv cSpecRev false true ArdpMode.dwell = .ok (cFTRev1, cSpecRev1)
    ∧ fill_tt_spec cEnv cSpecRev1 false true ArdpMode.dwell = .ok (cFTRev2, cSpecRev2)
    ∧ cFTRev1.timetable = [["Read Up"]]
    ∧ cFTRev2.timetable = [["Read Down"]]
    ∧ cFTRev1.timetable ≠ cFTRev2.timetable := by
  refine ⟨rfl, rfl, rfl, rfl, ?_⟩
  decide

/-- C8, amended: the fill is idempotent exactly on specs that the in-place
normalization leaves alone — no omit rows, no column-options marker row, a
blank key cell — and whose data cells carry no substitution token.  For such
a spec, a successful fill returns a spec state on which a second fill
reproduces the first fill's entire output (timetable, styler, headers,
header styling and write trace) and the same spec state. -/
theorem tk_C8_idempotent_fixpoint (env : FillEnv) (spec : TTSpecData) (dh dm : Bool)
    (mode : ArdpMode) (ft1 : FilledTimetable) (spec1 : TTSpecData)
    (hstrip : spec.csv.filter (fun row => row.getD 0 "" ≠ "omit") = spec.csv)
    (hco : pyLower (get2d spec.csv 1 0) ∉ (["column-options", "column_options"] : List String))
    (hkey : get2d spec.csv 0 0 = "")
    (hsub : ∀ y x : Nat, 1 ≤ y → 1 ≤ x →
      get_cell_substitution (get2d spec.csv y x) = none)
    (hok1 : fill_tt_spec env spec dh dm mode = .ok (ft1, spec1)) :
    fill_tt_spec env spec1 dh dm mode = .ok (ft1, spec1) := by
  obtain ⟨rd, nspec, ardp, res, h1, h2, h3, h4, h5, h6, h7⟩ :=
    fill_tt_spec_inv env spec dh dm mode ft1 spec1 hok1
  have hnf := normalize_fixpoint env spec hstrip hco hkey
  rw [h3] at hnf
  injection hnf with hnspec
  subst hnspec
  have hcsv := fill_columns_nosub _ _ _ _ _ _ _ _ _ _ _ _ _ h5
    (fun x hx y hy => hsub y x (List.mem_range'_1.mp hy).1 (List.mem_range'_1.mp hx).1)
  have hcsv' : res.1.csv = spec.csv := hcsv
  have hsp : spec1
      = { spec with column_options := List.replicate (spec.csv.headD []).length [] } := by
    rw [h7, hcsv']
  subst hsp
  have h3' : TTSpecData.normalize env
        ({ spec with column_options := List.replicate (spec.csv.headD []).length [] })
      = .ok ({ spec with column_options := List.replicate (spec.csv.headD []).length [] }) :=
    normalize_fixpoint env _ hstrip hco hkey
  have hd := fill_tt_spec_decomp env
    ({ spec with column_options := List.replicate (spec.csv.headD []).length [] }) dh dm mode
    rd ({ spec with column_options := List.replicate (spec.csv.headD []).length [] })
    ardp res h1 h2 h3' h4 h5
  rw [hd, h6, hcsv']

/-- C8 witness: the concrete 2×2 spec `cSpec` satisfies the fixpoint
hypotheses; its fill succeeds, and re-running the fill on the returned spec
state reproduces the same output. -/
theorem tk_C8_witness :
    fill_tt_spec cEnv cSpec false true ArdpMode.dwell = .ok (cFT, cSpecOut)
    ∧ fill_tt_spec cEnv cSpecOut false true ArdpMode.dwell = .ok (cFT, cSpecOut) := by
  have hok : fill_tt_spec cEnv cSpec false true ArdpMode.dwell = .ok (cFT, cSpecOut) := rfl
  refine ⟨hok, tk_C8_idempotent_fixpoint cEnv cSpec false true ArdpMode.dwell cFT cSpecOut
    (by decide) (by decide) (by decide) ?_ hok⟩
  intro y x hy hx
  rcases y with _ | y
  · omega
  rcases x with _ | x
  · omega
  rcases y with _ | y
  · rcases x with _ | x
    · rfl
    · rfl
  · rfl

/-- A spec with an omit row between the header row and the CHI row. -/
def cSpecOmit : TTSpecData :=
  ⟨some "20231001", false, 300, false, false,
   [["", "59"], ["omit", "x"], ["CHI", ""]], []⟩

/-- C9 counterexample: the spec grid is not a read-only input.  Filling
`cSpecOmit` succeeds, and the spec object's grid after the call (modelled by
the returned spec state: the source mutates `self` in place) has lost its
omit row, so it differs from the grid that was passed in. -/
theorem tk_C9_counterexample :
    fill_tt_spec cEnv cSpecOmit false true ArdpMode.dwell = .ok (cFT, cSpecOut)
    ∧ cSpecOut.csv ≠ cSpecOmit.csv := by
  refine ⟨rfl, ?_⟩
  decide

/-- C9, amended: the only spec mutation the fill performs is the documented
in-place normalization plus cell substitutions.  Whenever the fill succeeds
and the normalized grid's data cells carry no substitution token, the spec
state after the call is exactly the normalized spec; the aux settings are
never touched. -/
theorem tk_C9_frame (env : FillEnv) (spec : TTSpecData) (dh dm : Bool) (mode : ArdpMode)
    (ft : FilledTimetable) (spec' nspec : TTSpecData)
    (hok : fill_tt_spec env spec dh dm mode = .ok (ft, spec'))
    (hn : TTSpecData.normalize env spec = .ok nspec)
    (hsub : ∀ y x : Nat, 1 ≤ y → 1 ≤ x →
      get_cell_substitution (get2d nspec.csv y x) = none) :
    spec' = nspec
    ∧ nspec.aux_reference_date = spec.aux_reference_date
    ∧ nspec.aux_train_numbers_side_by_side = spec.aux_train_numbers_side_by_side
    ∧ nspec.aux_dwell_secs_cutoff = spec.aux_dwell_secs_cutoff
    ∧ nspec.aux_use_bus_icon_in_cells = spec.aux_use_bus_icon_in_cells
    ∧ nspec.aux_box_time_characters = spec.aux_box_time_characters := by
  obtain ⟨rd, nspec2, ardp, res, h1, h2, h3, h4, h5, h6, h7⟩ :=
    fill_tt_spec_inv env spec dh dm mode ft spec' hok
  rw [hn] at h3
  injection h3 with h3
  subst h3
  have hcsv := fill_columns_nosub _ _ _ _ _ _ _ _ _ _ _ _ _ h5
    (fun x hx y hy => hsub y x (List.mem_range'_1.mp hy).1 (List.mem_range'_1.mp hx).1)
  have hcsv' : res.1.csv = nspec.csv := hcsv
  refine ⟨?_, normalize_aux env spec nspec hn⟩
  rw [h7, hcsv']

/-- C9 witness: the frame theorem applied at `cSpecOmit`, whose fill
succeeds; the returned spec state equals the normalized spec (omit row
dropped, empty option lists installed) and every aux setting survives. -/
theorem tk_C9_witness :
    fill_tt_spec cEnv cSpecOmit false true ArdpMode.dwell = .ok (cFT, cSpecOut)
    ∧ TTSpecData.normalize cEnv cSpecOmit = .ok cSpecOut
    ∧ cSpecOut.aux_reference_date = cSpecOmit.aux_reference_date := by
  have hok : fill_tt_spec cEnv cSpecOmit false true ArdpMode.dwell = .ok (cFT, cSpecOut) := rfl
  have hn : TTSpecData.normalize cEnv cSpecOmit = .ok cSpecOut := rfl
  have h := tk_C9_frame cEnv cSpecOmit false true ArdpMode.dwell cFT cSpecOut cSpecOut hok hn ?_
  · exact ⟨hok, hn, h.2.1⟩
  intro y x hy hx
  rcases y with _ | y
  · omega
  rcases x with _ | x
  · omega
  rcases y with _ | y
  · rcases x with _ | x
    · rfl
    · rfl
  · rfl
